/-
Verification of the Hyperliquid trading bot's backtesting core.

The definitions below are shallow embeddings of the Python modules
`panel_modules/backtest_simulator.py`, `panel_modules/backtest_indicators.py`,
`panel_modules/backtest_strategies.py`, `panel_modules/backtest_results.py`,
`signals/bollinger_bands_30min.py` and `signals/support_resistance_1h.py`.
Machine floats are modelled by rationals; pandas NaN entries are modelled by
`Option`; Python dictionaries ordered by insertion are modelled by lists.
-/
import Mathlib

/-! ## Trade simulator (`backtest_simulator.py`) -/

/-- A signal dictionary as produced by the strategy evaluators:
keys `timestamp`, `price`, `rsi`, `action`. -/
structure SigRec where
  timestamp : Nat
  price : ℚ
  rsi : ℚ
  action : String
deriving Repr, DecidableEq

/-- The transient open-position dictionary built on an accepted BUY. -/
structure PositionRec where
  entry_time : Nat
  entry_price : ℚ
  entry_rsi : ℚ
  size_usd : ℚ
deriving Repr, DecidableEq

/-- A completed round-trip trade appended on an accepted SELL. -/
structure TradeRec where
  entry_time : Nat
  entry_price : ℚ
  exit_time : Nat
  exit_price : ℚ
  pnl_pct : ℚ
  profit_usd : ℚ
deriving Repr, DecidableEq

/-- The trade dictionary built when a SELL closes position `p` at signal `s`
(lines 33-43 of `backtest_simulator.py`). -/
def mkTrade (p : PositionRec) (s : SigRec) : TradeRec :=
  let pnl : ℚ := ((s.price - p.entry_price) / p.entry_price) * 100
  { entry_time := p.entry_time
    entry_price := p.entry_price
    exit_time := s.timestamp
    exit_price := s.price
    pnl_pct := pnl
    profit_usd := (pnl / 100) * p.size_usd }

/-- The position dictionary opened by an accepted BUY (lines 24-29). -/
def mkPosition (s : SigRec) (position_size : ℚ) : PositionRec :=
  { entry_time := s.timestamp
    entry_price := s.price
    entry_rsi := s.rsi
    size_usd := position_size }

/-- The signal loop of `simulate_trades`, carrying the `position` state. -/
def simulateAux (position_size : ℚ) : Option PositionRec → List SigRec → List TradeRec
  | _, [] => []
  | none, s :: rest =>
    if s.action = "BUY" then
      simulateAux position_size (some (mkPosition s position_size)) rest
    else
      simulateAux position_size none rest
  | some p, s :: rest =>
    if s.action = "SELL" then
      mkTrade p s :: simulateAux position_size none rest
    else
      simulateAux position_size (some p) rest

/-- `simulate_trades(signals, position_size)`: fold the signals through the
single-position state machine, starting flat. -/
def simulate_trades (signals : List SigRec) (position_size : ℚ) : List TradeRec :=
  simulateAux position_size none signals

/-- The statistics dictionary returned by `calculate_trade_statistics`. -/
structure StatsRec where
  total_trades : Nat
  winning_trades : Nat
  losing_trades : Nat
  win_rate : ℚ
  total_profit_usd : ℚ
  avg_profit : ℚ
deriving Repr, DecidableEq

/-- `calculate_trade_statistics(trades)`: `none` on the empty list, otherwise
counts of winning (`profit_usd > 0`) and losing (`profit_usd <= 0`) trades,
win rate, total and average profit. -/
def calculate_trade_statistics (trades : List TradeRec) : Option StatsRec :=
  if trades = [] then none
  else
    let winning := trades.filter (fun t => 0 < t.profit_usd)
    let losing := trades.filter (fun t => t.profit_usd ≤ 0)
    let total_profit := (trades.map (fun t => t.profit_usd)).sum
    some
      { total_trades := trades.length
        winning_trades := winning.length
        losing_trades := losing.length
        win_rate := ((winning.length : ℚ) / (trades.length : ℚ)) * 100
        total_profit_usd := total_profit
        avg_profit := total_profit / (trades.length : ℚ) }

/-! ## Indicators (`backtest_indicators.py`)

`calculate_rsi` computes `prices.diff()`, replaces non-positive (and the
leading NaN) deltas by 0 via `.where`, and takes `rolling(period).mean()` of
gains and losses.  A rolling mean over a window of `period` is NaN exactly at
the first `period - 1` indices.  `rs = gain/loss` and
`rsi = 100 - 100/(1+rs)` follow IEEE semantics: `g/0 = +inf` for `g > 0`
(so `rsi = 100`) and `0/0 = NaN`.  NaN is modelled as `none`. -/

/-- Entry `i` of the gain series `deltas.where(deltas > 0, 0)`:
the leading NaN delta compares false against 0 and becomes 0. -/
def gainAt (prices : List ℚ) (i : Nat) : ℚ :=
  if i = 0 then 0
  else
    let d := prices.getD i 0 - prices.getD (i - 1) 0
    if 0 < d then d else 0

/-- Entry `i` of the loss series `-deltas.where(deltas < 0, 0)`. -/
def lossAt (prices : List ℚ) (i : Nat) : ℚ :=
  if i = 0 then 0
  else
    let d := prices.getD i 0 - prices.getD (i - 1) 0
    if d < 0 then -d else 0

/-- Trailing mean of `f` over the window `i - period + 1 .. i`. -/
def rollMean (f : Nat → ℚ) (period i : Nat) : ℚ :=
  (((List.range period).map (fun k => f (i - k))).sum) / (period : ℚ)

/-- Value of `calculate_rsi(prices, period)` at index `i`; `none` models NaN
(out of range, the rolling warm-up, or the `0/0` ratio of a flat window). -/
def rsiAt (prices : List ℚ) (period i : Nat) : Option ℚ :=
  if i + 1 < period ∨ prices.length ≤ i then none
  else
    let g := rollMean (gainAt prices) period i
    let l := rollMean (lossAt prices) period i
    if l = 0 then (if g = 0 then none else some 100)
    else some (100 - 100 / (1 + g / l))

/-- Value of `calculate_sma(prices, period)` at index `i`; `none` models the
rolling warm-up NaN. -/
def smaAt (prices : List ℚ) (period i : Nat) : Option ℚ :=
  if i + 1 < period ∨ prices.length ≤ i then none
  else some (rollMean (fun k => prices.getD k 0) period i)

/-! ## Strategy evaluators (`backtest_strategies.py`) -/

/-- One OHLCV row of the candle dataframe (only the fields the RSI and SMA
evaluators read). -/
structure Candle where
  timestamp : Nat
  close : ℚ
deriving Repr, DecidableEq

/-- The signal-generation loop of `run_rsi_backtest` (lines 34-53):
skip NaN RSI rows, BUY when `rsi <= oversold`, SELL when `rsi >= overbought`. -/
def rsiSignals (df : List Candle) (period : Nat) (oversold overbought : ℚ) :
    List SigRec :=
  (List.range df.length).filterMap (fun i =>
    match rsiAt (df.map (fun c => c.close)) period i with
    | none => none
    | some rsi =>
      let c := df.getD i ⟨0, 0⟩
      if rsi ≤ oversold then some ⟨c.timestamp, c.close, rsi, "BUY"⟩
      else if overbought ≤ rsi then some ⟨c.timestamp, c.close, rsi, "SELL"⟩
      else none)

/-- The result dictionary of a strategy backtest: parameter echo fields,
`signals_generated`, and the statistics keys merged by `**stats`. -/
structure BacktestOutcome where
  coin : String
  period : ℚ
  oversold : ℚ
  overbought : ℚ
  signals_generated : Nat
  stats : StatsRec
deriving Repr, DecidableEq

/-- `run_rsi_backtest`: generate signals, simulate, and return `none` when
`calculate_trade_statistics` returns `None` (the falsy branch at line 59). -/
def run_rsi_backtest (df : List Candle) (coin : String) (period : Nat)
    (oversold overbought : ℚ) (position_size : ℚ) : Option BacktestOutcome :=
  let signals := rsiSignals df period oversold overbought
  let trades := simulate_trades signals position_size
  match calculate_trade_statistics trades with
  | none => none
  | some stats =>
    some ⟨coin, (period : ℚ), oversold, overbought, signals.length, stats⟩

/-- Python comparison `a <= b` on possibly-NaN floats: false when either side
is NaN. -/
def nanLE (a b : Option ℚ) : Bool :=
  match a, b with
  | some x, some y => x ≤ y
  | _, _ => false

/-- Python comparison `a >= b` on possibly-NaN floats. -/
def nanGE (a b : Option ℚ) : Bool :=
  match a, b with
  | some x, some y => y ≤ x
  | _, _ => false

/-- The signal-generation loop of `run_sma_backtest` (lines 98-122): indices
start at 1, rows with a NaN current SMA are skipped, and crossovers compare
the previous row's SMAs, which may themselves be NaN. -/
def smaSignals (df : List Candle) (short_period long_period : Nat) :
    List SigRec :=
  (List.range df.length).filterMap (fun i =>
    if i = 0 then none
    else
      let closes := df.map (fun c => c.close)
      match smaAt closes short_period i, smaAt closes long_period i with
      | some curr_short, some curr_long =>
        let prev_short := smaAt closes short_period (i - 1)
        let prev_long := smaAt closes long_period (i - 1)
        let c := df.getD i ⟨0, 0⟩
        if nanLE prev_short prev_long ∧ curr_long < curr_short then
          some ⟨c.timestamp, c.close, 0, "BUY"⟩
        else if nanGE prev_short prev_long ∧ curr_short < curr_long then
          some ⟨c.timestamp, c.close, 0, "SELL"⟩
        else none
      | _, _ => none)

/-- `run_sma_backtest`: signals, simulation, and the same `None`-on-no-stats
drop; the result echoes `short_period`/`long_period` in the `period`/`oversold`
slots. -/
def run_sma_backtest (df : List Candle) (coin : String)
    (short_period long_period : Nat) (position_size : ℚ) :
    Option BacktestOutcome :=
  let signals := smaSignals df short_period long_period
  let trades := simulate_trades signals position_size
  match calculate_trade_statistics trades with
  | none => none
  | some stats =>
    some ⟨coin, (short_period : ℚ), (long_period : ℚ), 0, signals.length, stats⟩

/-! ## Result ranking and persistence (`backtest_results.py`)

Python dictionaries preserve key-insertion order, and updating an existing key
keeps its slot, so `coins_best` is modelled as a list with one row per coin in
first-seen coin order. -/

/-- Shorthand for the `total_profit_usd` key of a result row. -/
def BacktestOutcome.profit (r : BacktestOutcome) : ℚ :=
  r.stats.total_profit_usd

/-- Update the `coins_best` dict of `group_best_results_by_coin` (line 88)
with one row: replace the row stored for its coin only on strictly greater
`total_profit_usd`; a new coin is appended at the end. -/
def updBest : List BacktestOutcome → BacktestOutcome → List BacktestOutcome
  | [], r => [r]
  | x :: xs, r =>
    if x.coin = r.coin then
      (if x.profit < r.profit then r else x) :: xs
    else
      x :: updBest xs r

/-- The `coins_best` dict after the loop of `group_best_results_by_coin`. -/
def coinsBest (results : List BacktestOutcome) : List BacktestOutcome :=
  results.foldl updBest []

/-- `group_best_results_by_coin(results)`: best row per coin, then a stable
sort by `total_profit_usd` descending (`list.sort(key=..., reverse=True)`). -/
def group_best_results_by_coin (results : List BacktestOutcome) :
    List BacktestOutcome :=
  (coinsBest results).mergeSort (fun a b => b.profit ≤ a.profit)

/-- Update the `coins_best` dict of `save_best_results` (lines 29-32): the
first row seen for each coin is kept and never replaced. -/
def updFirst : List BacktestOutcome → BacktestOutcome → List BacktestOutcome
  | [], r => [r]
  | x :: xs, r => if x.coin = r.coin then x :: xs else x :: updFirst xs r

/-- The `coins_best` dict after the grouping loop of `save_best_results`. -/
def firstPerCoin (results : List BacktestOutcome) : List BacktestOutcome :=
  results.foldl updFirst []

/-- The JSON payload written per coin by `save_best_results` (lines 39-60):
the `best_parameters` and `performance` blocks of the stored row. -/
structure SaveRec where
  coin : String
  period : ℚ
  oversold : ℚ
  overbought : ℚ
  total_profit_usd : ℚ
  total_trades : Nat
  winning_trades : Nat
  losing_trades : Nat
  win_rate : ℚ
  avg_profit : ℚ
  signals_generated : Nat
deriving Repr, DecidableEq

/-- Build the saved record from a result row. -/
def mkSave (r : BacktestOutcome) : SaveRec :=
  { coin := r.coin
    period := r.period
    oversold := r.oversold
    overbought := r.overbought
    total_profit_usd := r.stats.total_profit_usd
    total_trades := r.stats.total_trades
    winning_trades := r.stats.winning_trades
    losing_trades := r.stats.losing_trades
    win_rate := r.stats.win_rate
    avg_profit := r.stats.avg_profit
    signals_generated := r.signals_generated }

/-- The write loop of `save_best_results`, parameterised by which coin files
the filesystem accepts.  The whole loop sits inside one `try`, so the first
failing write raises out of the loop and the surrounding `except` swallows
the exception: the records written so far survive, the rest are skipped. -/
def saveLoop (writeOk : String → Bool) : List BacktestOutcome → List SaveRec
  | [] => []
  | b :: bs =>
    if writeOk b.coin then mkSave b :: saveLoop writeOk bs else []

/-- `save_best_results(all_results, ...)` as the list of records actually
written; the function itself always returns `None` to its caller (no
exception escapes the `except` clause). -/
def save_best_results (all_results : List BacktestOutcome)
    (writeOk : String → Bool) : List SaveRec :=
  saveLoop writeOk (firstPerCoin all_results)

/-! ## Live signal generators (`signals/bollinger_bands_30min.py` and
`signals/support_resistance_1h.py`) -/

/-- `_calculate_bb_position(price, upper, lower, middle)` (the `middle`
argument is unused by the source): 0.5 when the bands collapse, otherwise the
band-relative position clamped to `[0, 1]`. -/
def calc_bb_position (price upper lower _middle : ℚ) : ℚ :=
  if upper = lower then 0.5
  else max 0 (min 1 ((price - lower) / (upper - lower)))

/-- Modelled from the spec: `Band position(price, upper, lower)` is
`(price−lower)/(upper−lower)` clamped to `[0,1]`, with the degenerate case
`upper == lower` yielding exactly `0.5`. -/
def bandPositionSpec (price upper lower : ℚ) : ℚ :=
  if upper = lower then 1 / 2
  else min (max ((price - lower) / (upper - lower)) 0) 1

/-- The inline band position of `run_bollinger_bands_backtest`
(`backtest_strategies.py` lines 408-412): the raw ratio guarded against
`upper == lower`, with no clamping. -/
def bbPositionBacktest (price upper lower : ℚ) : ℚ :=
  if upper ≠ lower then (price - lower) / (upper - lower) else 0.5

/-- `_calculate_signal_strength` of the Bollinger generator (lines 169-212). -/
def bb_signal_strength (bb_position bandwidth : ℚ) (action : String)
    (price lower upper touch_threshold : ℚ) : ℚ :=
  if action = "BUY" then
    let distance_to_lower := |price - lower| / lower * 100
    let position_strength := 1 - bb_position
    let strength :=
      if distance_to_lower ≤ touch_threshold then
        0.85 + position_strength * 0.15
      else
        0.6 + position_strength * 0.2
    let strength := if 4 < bandwidth then min 1 (strength + 0.1) else strength
    min 1 (max 0 strength)
  else if action = "SELL" then
    let distance_to_upper := |upper - price| / upper * 100
    let position_strength := bb_position
    let strength :=
      if distance_to_upper ≤ touch_threshold then
        0.85 + position_strength * 0.15
      else
        0.6 + position_strength * 0.2
    let strength := if 4 < bandwidth then min 1 (strength + 0.1) else strength
    min 1 (max 0 strength)
  else 0

/-- Python truthiness of an optional float: `None` and `0.0` are falsy. -/
def optTruthy (x : Option ℚ) : Bool :=
  match x with
  | none => false
  | some v => v ≠ 0

/-- `_calculate_signal_strength` of the support/resistance generator
(lines 283-297). -/
def sr_signal_strength (current_price : ℚ)
    (nearest_resistance nearest_support : Option ℚ) (action : String) : ℚ :=
  if action = "BUY" ∧ optTruthy nearest_support then
    let s := nearest_support.getD 0
    let distance_to_support := (current_price - s) / s * 100
    let strength := max 0.6 (1 - distance_to_support / 2)
    min 1 (max 0 strength)
  else if action = "SELL" ∧ optTruthy nearest_resistance then
    let r := nearest_resistance.getD 0
    let distance_to_resistance := (r - current_price) / r * 100
    let strength := max 0.6 (1 - distance_to_resistance / 2)
    min 1 (max 0 strength)
  else 0

/-- The per-level distance test of `_filter_levels_by_distance` (line 208):
`abs(level - filtered_level) / filtered_level * 100`. -/
def levelDist (level filtered_level : ℚ) : ℚ :=
  |level - filtered_level| / filtered_level * 100

/-- The accumulation loop of `_filter_levels_by_distance`: a level is appended
only when its distance to every already-kept level is at least
`min_distance_percent`. -/
def filterLevelsAux (min_distance_percent : ℚ) (filtered : List ℚ) :
    List ℚ → List ℚ
  | [] => filtered
  | l :: ls =>
    if filtered.all (fun f => ¬ levelDist l f < min_distance_percent) then
      filterLevelsAux min_distance_percent (filtered ++ [l]) ls
    else
      filterLevelsAux min_distance_percent filtered ls

/-- `_filter_levels_by_distance(levels, min_distance_percent)`: the first
level is kept unconditionally, later levels must clear every kept level. -/
def filter_levels_by_distance : List ℚ → ℚ → List ℚ
  | [], _ => []
  | l0 :: rest, min_distance_percent =>
    filterLevelsAux min_distance_percent [l0] rest

/-- The resistance half of `_find_nearest_levels`: `min` of the levels
strictly above the current price, guarded against the empty list. -/
def findNearestResistance (current_price : ℚ)
    (resistance_levels : List ℚ) : Option ℚ :=
  (resistance_levels.filter (fun r => current_price < r)).min?

/-- The support half of `_find_nearest_levels`: `max` of the levels strictly
below the current price. -/
def findNearestSupport (current_price : ℚ)
    (support_levels : List ℚ) : Option ℚ :=
  (support_levels.filter (fun s => s < current_price)).max?

/-- Modelled from the spec: the best row of a result list — the row of
maximum `total_profit_usd`, the first-encountered row winning exact ties
(the first row whose profit is greater than or equal to every row's). -/
def firstMaxRow (l : List BacktestOutcome) : Option BacktestOutcome :=
  l.find? (fun r => l.all (fun y => y.profit ≤ r.profit))

/-- Fold form of the first-encountered maximum-profit row: replace the
best-so-far only on strictly greater profit. -/
def foldBest (x : BacktestOutcome) (xs : List BacktestOutcome) :
    BacktestOutcome :=
  xs.foldl (fun b r => if b.profit < r.profit then r else b) x

/-- `foldBest` as a function on whole lists. -/
def fmList (l : List BacktestOutcome) : List BacktestOutcome :=
  match l with
  | [] => []
  | x :: xs => [foldBest x xs]

/-- The 50-candle strictly increasing price series of end-to-end scenario 1
(prices rise from 100 to 200). -/
def scenarioCandles : List Candle :=
  [⟨0, 100⟩, ⟨1, 102⟩, ⟨2, 104⟩, ⟨3, 106⟩, ⟨4, 108⟩, ⟨5, 110⟩, ⟨6, 112⟩,
   ⟨7, 114⟩, ⟨8, 116⟩, ⟨9, 118⟩, ⟨10, 120⟩, ⟨11, 122⟩, ⟨12, 124⟩, ⟨13, 126⟩,
   ⟨14, 128⟩, ⟨15, 130⟩, ⟨16, 132⟩, ⟨17, 134⟩, ⟨18, 136⟩, ⟨19, 138⟩,
   ⟨20, 140⟩, ⟨21, 142⟩, ⟨22, 144⟩, ⟨23, 146⟩, ⟨24, 148⟩, ⟨25, 150⟩,
   ⟨26, 152⟩, ⟨27, 154⟩, ⟨28, 156⟩, ⟨29, 158⟩, ⟨30, 160⟩, ⟨31, 162⟩,
   ⟨32, 164⟩, ⟨33, 166⟩, ⟨34, 168⟩, ⟨35, 170⟩, ⟨36, 172⟩, ⟨37, 174⟩,
   ⟨38, 176⟩, ⟨39, 178⟩, ⟨40, 180⟩, ⟨41, 182⟩, ⟨42, 184⟩, ⟨43, 186⟩,
   ⟨44, 188⟩, ⟨45, 190⟩, ⟨46, 192⟩, ⟨47, 194⟩, ⟨48, 196⟩, ⟨49, 200⟩]

def closesLit : List ℚ :=
  [100, 102, 104, 106, 108, 110, 112, 114, 116, 118, 120, 122, 124, 126,
   128, 130, 132, 134, 136, 138, 140, 142, 144, 146, 148, 150, 152, 154,
   156, 158, 160, 162, 164, 166, 168, 170, 172, 174, 176, 178, 180, 182,
   184, 186, 188, 190, 192, 194, 196, 200]


/-- Concrete result rows used in concrete instantiations: two BTC rows with
profits 1 and 2, and an ETH row with profit 1. -/
def rowBtcLow : BacktestOutcome := ⟨"BTC", 10, 30, 70, 5, ⟨1, 1, 0, 100, 1, 1⟩⟩

def rowBtcHigh : BacktestOutcome := ⟨"BTC", 12, 25, 75, 6, ⟨1, 1, 0, 100, 2, 2⟩⟩

def rowEth : BacktestOutcome := ⟨"ETH", 10, 30, 70, 5, ⟨1, 1, 0, 100, 1, 1⟩⟩

/-! ## Theorems -/

lemma simulateAux_nil (ps : ℚ) (pos : Option PositionRec) :
    simulateAux ps pos [] = [] := by
  cases pos <;> rfl

lemma simulateAux_pnl (ps : ℚ) :
    ∀ (sigs : List SigRec) (pos : Option PositionRec),
      (∀ p, pos = some p → p.size_usd = ps) →
      ∀ t ∈ simulateAux ps pos sigs,
        t.pnl_pct = (t.exit_price - t.entry_price) / t.entry_price * 100 ∧
        t.profit_usd = t.pnl_pct / 100 * ps := by
  intro sigs
  induction sigs with
  | nil =>
    intro pos _ t ht
    rw [simulateAux_nil] at ht
    exact absurd ht (List.not_mem_nil t)
  | cons s rest ih =>
    intro pos hpos t ht
    cases pos with
    | none =>
      rw [simulateAux] at ht
      split at ht
      · exact ih (some (mkPosition s ps)) (by intro p hp; cases hp; rfl) t ht
      · exact ih none (by intro p hp; cases hp) t ht
    | some p =>
      rw [simulateAux] at ht
      split at ht
      · rcases List.mem_cons.mp ht with h | h
        · subst h
          refine ⟨rfl, ?_⟩
          have hsz : p.size_usd = ps := hpos p rfl
          simp [mkTrade, hsz]
        · exact ih none (by intro q hq; cases hq) t h
      · exact ih (some p) hpos t ht

lemma simulateAux_exit_sublist (ps : ℚ) :
    ∀ (sigs : List SigRec) (pos : Option PositionRec),
      ((simulateAux ps pos sigs).map (fun t => t.exit_time)).Sublist
        (sigs.map (fun s => s.timestamp)) := by
  intro sigs
  induction sigs with
  | nil =>
    intro pos
    rw [simulateAux_nil]
    exact List.Sublist.refl _
  | cons s rest ih =>
    intro pos
    cases pos with
    | none =>
      rw [simulateAux]
      split
      · exact (ih (some (mkPosition s ps))).cons _
      · exact (ih none).cons _
    | some p =>
      rw [simulateAux]
      split
      · simpa [mkTrade] using (ih none).cons₂ s.timestamp
      · exact (ih (some p)).cons _

/-- C1: `simulate_trades` follows the single open-position discipline: a BUY
opens only while flat, a SELL closes only while open, a BUY while open and a
SELL while flat leave the state and the output unchanged (silently ignored),
an accepted SELL emits exactly one trade with
`pnl_percent = (exit − entry)/entry × 100` and
`profit_amount = pnl_percent/100 × position_size`, trades are emitted in
signal order (their exit times form a sublist of the signal timestamps), and
a position still open when the signals end produces no trade. -/
theorem simulate_trades_discipline
    (signals rest : List SigRec) (position_size : ℚ) (s : SigRec)
    (p : PositionRec) (pos : Option PositionRec) :
    (∀ t ∈ simulate_trades signals position_size,
      t.pnl_pct = (t.exit_price - t.entry_price) / t.entry_price * 100 ∧
      t.profit_usd = t.pnl_pct / 100 * position_size) ∧
    (s.action = "BUY" →
      simulateAux position_size (some p) (s :: rest) =
        simulateAux position_size (some p) rest) ∧
    (s.action = "SELL" →
      simulateAux position_size none (s :: rest) =
        simulateAux position_size none rest) ∧
    (s.action = "BUY" →
      simulateAux position_size none (s :: rest) =
        simulateAux position_size (some (mkPosition s position_size)) rest) ∧
    (s.action = "SELL" →
      simulateAux position_size (some p) (s :: rest) =
        mkTrade p s :: simulateAux position_size none rest) ∧
    simulateAux position_size pos [] = [] ∧
    ((simulate_trades signals position_size).map (fun t => t.exit_time)).Sublist
      (signals.map (fun s => s.timestamp)) := by
  refine ⟨?_, ?_, ?_, ?_, ?_, simulateAux_nil _ _, ?_⟩
  · exact simulateAux_pnl position_size signals none (by intro q hq; cases hq)
  · intro hbuy
    rw [simulateAux]
    rw [if_neg]
    intro hsell
    rw [hbuy] at hsell
    exact absurd hsell (by decide)
  · intro hsell
    rw [simulateAux]
    rw [if_neg]
    intro hbuy
    rw [hsell] at hbuy
    exact absurd hbuy (by decide)
  · intro hbuy
    rw [simulateAux, if_pos hbuy]
  · intro hsell
    rw [simulateAux, if_pos hsell]
  · exact simulateAux_exit_sublist position_size signals none

/-- Witness for C1 at concrete signals: a BUY while a position is open and a
SELL while flat are ignored, a BUY while flat opens the position, an accepted
SELL emits the trade, and the concrete run satisfies the P&L formulas. -/
theorem simulate_trades_discipline_witness :
    simulateAux 1000 (some ⟨0, 10, 0, 1000⟩) [⟨1, 12, 0, "BUY"⟩] =
      simulateAux 1000 (some ⟨0, 10, 0, 1000⟩) [] ∧
    simulateAux 1000 none [⟨1, 12, 0, "SELL"⟩] = simulateAux 1000 none [] ∧
    simulateAux 1000 none [⟨1, 12, 0, "BUY"⟩] =
      simulateAux 1000 (some (mkPosition ⟨1, 12, 0, "BUY"⟩ 1000)) [] ∧
    simulateAux 1000 (some ⟨0, 10, 0, 1000⟩) [⟨1, 12, 0, "SELL"⟩] =
      mkTrade ⟨0, 10, 0, 1000⟩ ⟨1, 12, 0, "SELL"⟩ :: simulateAux 1000 none [] ∧
    ∀ t ∈ simulate_trades [⟨0, 10, 0, "BUY"⟩, ⟨1, 12, 0, "SELL"⟩] 1000,
      t.pnl_pct = (t.exit_price - t.entry_price) / t.entry_price * 100 ∧
      t.profit_usd = t.pnl_pct / 100 * 1000 :=
  ⟨(simulate_trades_discipline [] [] 1000 ⟨1, 12, 0, "BUY"⟩ ⟨0, 10, 0, 1000⟩
      none).2.1 rfl,
   (simulate_trades_discipline [] [] 1000 ⟨1, 12, 0, "SELL"⟩ ⟨0, 10, 0, 1000⟩
      none).2.2.1 rfl,
   (simulate_trades_discipline [] [] 1000 ⟨1, 12, 0, "BUY"⟩ ⟨0, 10, 0, 1000⟩
      none).2.2.2.1 rfl,
   (simulate_trades_discipline [] [] 1000 ⟨1, 12, 0, "SELL"⟩ ⟨0, 10, 0, 1000⟩
      none).2.2.2.2.1 rfl,
   (simulate_trades_discipline [⟨0, 10, 0, "BUY"⟩, ⟨1, 12, 0, "SELL"⟩] [] 1000
      ⟨1, 12, 0, "SELL"⟩ ⟨0, 10, 0, 1000⟩ none).1⟩

/-- C9: on any non-empty trade list the statistics satisfy
`winning + losing = total`, `total_profit` is the sum of the trades' profits,
`avg_profit = total_profit / total_trades`, winning counts exactly the
strictly positive profits, losing counts the rest, and a zero-profit trade is
counted among the losing trades. -/
theorem calculate_trade_statistics_partition
    (trades : List TradeRec) (h : trades ≠ []) :
    ∃ st, calculate_trade_statistics trades = some st ∧
      st.winning_trades + st.losing_trades = st.total_trades ∧
      st.total_profit_usd = (trades.map (fun t => t.profit_usd)).sum ∧
      st.avg_profit = st.total_profit_usd / (st.total_trades : ℚ) ∧
      st.winning_trades = (trades.filter (fun t => 0 < t.profit_usd)).length ∧
      st.losing_trades = (trades.filter (fun t => t.profit_usd ≤ 0)).length ∧
      ∀ t ∈ trades, t.profit_usd = 0 →
        t ∈ trades.filter (fun t => t.profit_usd ≤ 0) := by
  refine ⟨_, by rw [calculate_trade_statistics, if_neg h], ?_, rfl, rfl, rfl,
    rfl, ?_⟩
  · show (trades.filter (fun t => 0 < t.profit_usd)).length +
        (trades.filter (fun t => t.profit_usd ≤ 0)).length = trades.length
    clear h
    induction trades with
    | nil => rfl
    | cons t ts ih =>
      rcases lt_or_le 0 t.profit_usd with hp | hp
      · rw [List.filter_cons_of_pos (by simpa using hp),
          List.filter_cons_of_neg (by simpa using not_le.mpr hp)]
        simp only [List.length_cons]
        omega
      · rw [List.filter_cons_of_neg (by simpa using not_lt.mpr hp),
          List.filter_cons_of_pos (by simpa using hp)]
        simp only [List.length_cons]
        omega
  · intro t ht h0
    exact List.mem_filter.mpr ⟨ht, by simp [h0]⟩

/-- Witness for C9 at a concrete two-trade list, one of the trades with
profit exactly zero. -/
theorem calculate_trade_statistics_partition_witness :
    ∃ st, calculate_trade_statistics
        [⟨0, 10, 1, 15, 50, 500⟩, ⟨2, 10, 3, 10, 0, 0⟩] = some st ∧
      st.winning_trades + st.losing_trades = st.total_trades ∧
      st.total_profit_usd =
        (([⟨0, 10, 1, 15, 50, 500⟩, ⟨2, 10, 3, 10, 0, 0⟩] :
          List TradeRec).map (fun t => t.profit_usd)).sum ∧
      st.avg_profit = st.total_profit_usd / (st.total_trades : ℚ) ∧
      st.winning_trades =
        (([⟨0, 10, 1, 15, 50, 500⟩, ⟨2, 10, 3, 10, 0, 0⟩] :
          List TradeRec).filter (fun t => 0 < t.profit_usd)).length ∧
      st.losing_trades =
        (([⟨0, 10, 1, 15, 50, 500⟩, ⟨2, 10, 3, 10, 0, 0⟩] :
          List TradeRec).filter (fun t => t.profit_usd ≤ 0)).length ∧
      ∀ t ∈ ([⟨0, 10, 1, 15, 50, 500⟩, ⟨2, 10, 3, 10, 0, 0⟩] : List TradeRec),
        t.profit_usd = 0 →
        t ∈ ([⟨0, 10, 1, 15, 50, 500⟩, ⟨2, 10, 3, 10, 0, 0⟩] :
          List TradeRec).filter (fun t => t.profit_usd ≤ 0) :=
  calculate_trade_statistics_partition
    [⟨0, 10, 1, 15, 50, 500⟩, ⟨2, 10, 3, 10, 0, 0⟩] (by decide)

/-- C2: whenever the simulated trade list is empty the RSI strategy evaluator
returns `none` rather than a zero-trade result, and every produced result has
`win_rate = winning_trades / total_trades × 100` with `total_trades > 0`. -/
theorem run_rsi_backtest_drops_no_trade_tuples
    (df : List Candle) (coin : String) (period : Nat)
    (oversold overbought position_size : ℚ) :
    (simulate_trades (rsiSignals df period oversold overbought) position_size
        = [] →
      run_rsi_backtest df coin period oversold overbought position_size
        = none) ∧
    ∀ r, run_rsi_backtest df coin period oversold overbought position_size
        = some r →
      r.stats.win_rate =
        (r.stats.winning_trades : ℚ) / (r.stats.total_trades : ℚ) * 100 ∧
      0 < r.stats.total_trades := by
  constructor
  · intro hempty
    rw [run_rsi_backtest]
    rw [hempty]
    rfl
  · intro r hr
    rw [run_rsi_backtest] at hr
    set trades :=
      simulate_trades (rsiSignals df period oversold overbought) position_size
      with htr
    rcases hst : calculate_trade_statistics trades with _ | st
    · rw [hst] at hr
      cases hr
    · rw [hst] at hr
      cases hr
      rw [calculate_trade_statistics] at hst
      split at hst
      · cases hst
      · rename_i hne
        cases hst
        refine ⟨rfl, ?_⟩
        simpa [List.length_pos] using hne

/-- Witness for C2: an empty candle series yields `none`, and a concrete
profitable series yields a result whose `win_rate` satisfies the invariant. -/
theorem run_rsi_backtest_drops_no_trade_tuples_witness :
    run_rsi_backtest [] "BTC" 14 30 70 1000 = none ∧
    (∃ r, run_rsi_backtest [⟨0, 10⟩, ⟨1, 5⟩, ⟨2, 20⟩] "BTC" 1 30 70 1000
        = some r ∧
      r.stats.win_rate =
        (r.stats.winning_trades : ℚ) / (r.stats.total_trades : ℚ) * 100 ∧
      0 < r.stats.total_trades) := by
  have hr1 : List.range 1 = [0] := rfl
  have hr3 : List.range 3 = [0, 1, 2] := rfl
  have h0 : rsiAt [10, 5, 20] 1 0 = none := by
    norm_num [rsiAt, rollMean, gainAt, lossAt, hr1]
  have h1 : rsiAt [10, 5, 20] 1 1 = some 0 := by
    norm_num [rsiAt, rollMean, gainAt, lossAt, hr1]
  have h2 : rsiAt [10, 5, 20] 1 2 = some 100 := by
    norm_num [rsiAt, rollMean, gainAt, lossAt, hr1]
  have hsig : rsiSignals [⟨0, 10⟩, ⟨1, 5⟩, ⟨2, 20⟩] 1 30 70 =
      [⟨1, 5, 0, "BUY"⟩, ⟨2, 20, 100, "SELL"⟩] := by
    norm_num [rsiSignals, hr3, h0, h1, h2, List.filterMap_cons,
      List.getD_cons_zero, List.getD_cons_succ]
  have htr : simulate_trades [⟨1, 5, 0, "BUY"⟩, ⟨2, 20, 100, "SELL"⟩] 1000 =
      [⟨1, 5, 2, 20, 300, 3000⟩] := by
    norm_num [simulate_trades, simulateAux, mkPosition, mkTrade, TradeRec.mk.injEq]
  have hst : calculate_trade_statistics [⟨1, 5, 2, 20, 300, 3000⟩] =
      some ⟨1, 1, 0, 100, 3000, 3000⟩ := by
    norm_num [calculate_trade_statistics, List.filter, StatsRec.mk.injEq]
  have heval : run_rsi_backtest [⟨0, 10⟩, ⟨1, 5⟩, ⟨2, 20⟩] "BTC" 1 30 70 1000
      = some ⟨"BTC", 1, 30, 70, 2, ⟨1, 1, 0, 100, 3000, 3000⟩⟩ := by
    simp only [run_rsi_backtest, hsig, htr, hst]
    rfl
  exact ⟨(run_rsi_backtest_drops_no_trade_tuples [] "BTC" 14 30 70 1000).1 rfl,
    _, heval,
    (run_rsi_backtest_drops_no_trade_tuples [⟨0, 10⟩, ⟨1, 5⟩, ⟨2, 20⟩]
      "BTC" 1 30 70 1000).2 _ heval⟩

lemma gainAt_nonneg (prices : List ℚ) (i : Nat) : 0 ≤ gainAt prices i := by
  rw [gainAt]
  split
  · exact le_refl 0
  · dsimp only
    split
    · linarith
    · exact le_refl 0

lemma lossAt_nonneg (prices : List ℚ) (i : Nat) : 0 ≤ lossAt prices i := by
  rw [lossAt]
  split
  · exact le_refl 0
  · dsimp only
    split
    · linarith
    · exact le_refl 0

lemma rollMean_nonneg (f : Nat → ℚ) (period i : Nat) (hf : ∀ j, 0 ≤ f j) :
    0 ≤ rollMean f period i := by
  rw [rollMean]
  apply div_nonneg
  · apply List.sum_nonneg
    intro x hx
    rcases List.mem_map.mp hx with ⟨k, _, hk⟩
    exact hk ▸ hf (i - k)
  · exact_mod_cast Nat.zero_le period

/-- C6 counterexample: with `period = 2` the value at index `1` — inside the
first `period` indices — is already defined (and equals 100), so
`calculate_rsi` does not yield the not-available marker at each of the first
`period` indices. -/
theorem calculate_rsi_warmup_counterexample :
    rsiAt [1, 2, 3] 2 1 = some 100 ∧ (1 : Nat) < 2 ∧
      rsiAt [1, 2, 3] 2 1 ≠ none := by
  have hr2 : List.range 2 = [0, 1] := rfl
  have h : rsiAt [1, 2, 3] 2 1 = some 100 := by
    norm_num [rsiAt, rollMean, gainAt, lossAt, hr2]
  exact ⟨h, by norm_num, by rw [h]; exact Option.some_ne_none _⟩

/-- C6 amended: for every price series and period ≥ 1, `calculate_rsi` yields
the not-available marker at each of the first `period − 1` indices (the value
at index `period − 1` is in general already defined, since the leading NaN
delta is zero-filled by `.where`), and every defined value lies in
`[0, 100]`. -/
theorem calculate_rsi_warmup_and_range (prices : List ℚ) (period i : Nat)
    (_hp : 1 ≤ period) :
    (i + 1 < period → rsiAt prices period i = none) ∧
    ∀ x, rsiAt prices period i = some x → 0 ≤ x ∧ x ≤ 100 := by
  constructor
  · intro h
    rw [rsiAt, if_pos (Or.inl h)]
  · intro x hx
    rw [rsiAt] at hx
    split at hx
    · cases hx
    · have hg : 0 ≤ rollMean (gainAt prices) period i :=
        rollMean_nonneg _ _ _ (gainAt_nonneg prices)
      have hl : 0 ≤ rollMean (lossAt prices) period i :=
        rollMean_nonneg _ _ _ (lossAt_nonneg prices)
      set g := rollMean (gainAt prices) period i
      set l := rollMean (lossAt prices) period i
      dsimp only at hx
      split at hx
      · split at hx
        · cases hx
        · cases hx
          norm_num
      · rename_i hlne
        cases hx
        have hlpos : 0 < l := lt_of_le_of_ne hl (Ne.symm hlne)
        have hfrac : 0 ≤ g / l := div_nonneg hg hl
        constructor
        · have hle : 100 / (1 + g / l) ≤ 100 :=
            div_le_self (by norm_num) (by linarith)
          linarith
        · have hpos : 0 < 100 / (1 + g / l) := by positivity
          linarith

/-- Witness for the amended C6 at `period = 2`: index `0` is not available,
and the defined value 100 at index `1` is within `[0, 100]`. -/
theorem calculate_rsi_warmup_and_range_witness :
    (1 : Nat) ≤ 2 ∧ (0 + 1 < 2 ∧ rsiAt [1, 2, 3] 2 0 = none) ∧
      (0 : ℚ) ≤ 100 ∧ (100 : ℚ) ≤ 100 := by
  have hr2 : List.range 2 = [0, 1] := rfl
  have h1 : rsiAt [1, 2, 3] 2 1 = some 100 := by
    norm_num [rsiAt, rollMean, gainAt, lossAt, hr2]
  exact ⟨by norm_num, ⟨by norm_num,
    (calculate_rsi_warmup_and_range [1, 2, 3] 2 0 (by norm_num)).1
      (by norm_num)⟩,
    (calculate_rsi_warmup_and_range [1, 2, 3] 2 1 (by norm_num)).2 100 h1⟩

lemma hr5 : List.range 5 = [0, 1, 2, 3, 4] := rfl

lemma hr20 : List.range 20 =
    [0, 1, 2, 3, 4, 5, 6, 7, 8, 9, 10, 11, 12, 13, 14, 15, 16, 17, 18, 19] :=
  rfl

lemma hr50 : List.range 50 =
    [0, 1, 2, 3, 4, 5, 6, 7, 8, 9, 10, 11, 12, 13, 14, 15, 16, 17, 18, 19,
     20, 21, 22, 23, 24, 25, 26, 27, 28, 29, 30, 31, 32, 33, 34, 35, 36, 37,
     38, 39, 40, 41, 42, 43, 44, 45, 46, 47, 48, 49] := rfl

lemma hcll : closesLit.length = 50 := rfl

lemma scen_len : scenarioCandles.length = 50 := rfl

lemma scen_cl : scenarioCandles.map (fun c => c.close) = closesLit := rfl

lemma cl_0 (h : 0 < closesLit.length) : closesLit[0] = 100 := rfl
lemma cl_1 (h : 1 < closesLit.length) : closesLit[1] = 102 := rfl
lemma cl_2 (h : 2 < closesLit.length) : closesLit[2] = 104 := rfl
lemma cl_3 (h : 3 < closesLit.length) : closesLit[3] = 106 := rfl
lemma cl_4 (h : 4 < closesLit.length) : closesLit[4] = 108 := rfl
lemma cl_5 (h : 5 < closesLit.length) : closesLit[5] = 110 := rfl
lemma cl_6 (h : 6 < closesLit.length) : closesLit[6] = 112 := rfl
lemma cl_7 (h : 7 < closesLit.length) : closesLit[7] = 114 := rfl
lemma cl_8 (h : 8 < closesLit.length) : closesLit[8] = 116 := rfl
lemma cl_9 (h : 9 < closesLit.length) : closesLit[9] = 118 := rfl
lemma cl_10 (h : 10 < closesLit.length) : closesLit[10] = 120 := rfl
lemma cl_11 (h : 11 < closesLit.length) : closesLit[11] = 122 := rfl
lemma cl_12 (h : 12 < closesLit.length) : closesLit[12] = 124 := rfl
lemma cl_13 (h : 13 < closesLit.length) : closesLit[13] = 126 := rfl
lemma cl_14 (h : 14 < closesLit.length) : closesLit[14] = 128 := rfl
lemma cl_15 (h : 15 < closesLit.length) : closesLit[15] = 130 := rfl
lemma cl_16 (h : 16 < closesLit.length) : closesLit[16] = 132 := rfl
lemma cl_17 (h : 17 < closesLit.length) : closesLit[17] = 134 := rfl
lemma cl_18 (h : 18 < closesLit.length) : closesLit[18] = 136 := rfl
lemma cl_19 (h : 19 < closesLit.length) : closesLit[19] = 138 := rfl
lemma cl_20 (h : 20 < closesLit.length) : closesLit[20] = 140 := rfl
lemma cl_21 (h : 21 < closesLit.length) : closesLit[21] = 142 := rfl
lemma cl_22 (h : 22 < closesLit.length) : closesLit[22] = 144 := rfl
lemma cl_23 (h : 23 < closesLit.length) : closesLit[23] = 146 := rfl
lemma cl_24 (h : 24 < closesLit.length) : closesLit[24] = 148 := rfl
lemma cl_25 (h : 25 < closesLit.length) : closesLit[25] = 150 := rfl
lemma cl_26 (h : 26 < closesLit.length) : closesLit[26] = 152 := rfl
lemma cl_27 (h : 27 < closesLit.length) : closesLit[27] = 154 := rfl
lemma cl_28 (h : 28 < closesLit.length) : closesLit[28] = 156 := rfl
lemma cl_29 (h : 29 < closesLit.length) : closesLit[29] = 158 := rfl
lemma cl_30 (h : 30 < closesLit.length) : closesLit[30] = 160 := rfl
lemma cl_31 (h : 31 < closesLit.length) : closesLit[31] = 162 := rfl
lemma cl_32 (h : 32 < closesLit.length) : closesLit[32] = 164 := rfl
lemma cl_33 (h : 33 < closesLit.length) : closesLit[33] = 166 := rfl
lemma cl_34 (h : 34 < closesLit.length) : closesLit[34] = 168 := rfl
lemma cl_35 (h : 35 < closesLit.length) : closesLit[35] = 170 := rfl
lemma cl_36 (h : 36 < closesLit.length) : closesLit[36] = 172 := rfl
lemma cl_37 (h : 37 < closesLit.length) : closesLit[37] = 174 := rfl
lemma cl_38 (h : 38 < closesLit.length) : closesLit[38] = 176 := rfl
lemma cl_39 (h : 39 < closesLit.length) : closesLit[39] = 178 := rfl
lemma cl_40 (h : 40 < closesLit.length) : closesLit[40] = 180 := rfl
lemma cl_41 (h : 41 < closesLit.length) : closesLit[41] = 182 := rfl
lemma cl_42 (h : 42 < closesLit.length) : closesLit[42] = 184 := rfl
lemma cl_43 (h : 43 < closesLit.length) : closesLit[43] = 186 := rfl
lemma cl_44 (h : 44 < closesLit.length) : closesLit[44] = 188 := rfl
lemma cl_45 (h : 45 < closesLit.length) : closesLit[45] = 190 := rfl
lemma cl_46 (h : 46 < closesLit.length) : closesLit[46] = 192 := rfl
lemma cl_47 (h : 47 < closesLit.length) : closesLit[47] = 194 := rfl
lemma cl_48 (h : 48 < closesLit.length) : closesLit[48] = 196 := rfl
lemma cl_49 (h : 49 < closesLit.length) : closesLit[49] = 200 := rfl

lemma s5_0 : smaAt closesLit 5 0 = none := by
  norm_num [smaAt, rollMean, hr5, hcll, cl_0, cl_1, cl_2, cl_3, cl_4, cl_5, cl_6, cl_7, cl_8, cl_9, cl_10, cl_11, cl_12, cl_13, cl_14, cl_15, cl_16, cl_17, cl_18, cl_19, cl_20, cl_21, cl_22, cl_23, cl_24, cl_25, cl_26, cl_27, cl_28, cl_29, cl_30, cl_31, cl_32, cl_33, cl_34, cl_35, cl_36, cl_37, cl_38, cl_39, cl_40, cl_41, cl_42, cl_43, cl_44, cl_45, cl_46, cl_47, cl_48, cl_49]

lemma s5_1 : smaAt closesLit 5 1 = none := by
  norm_num [smaAt, rollMean, hr5, hcll, cl_0, cl_1, cl_2, cl_3, cl_4, cl_5, cl_6, cl_7, cl_8, cl_9, cl_10, cl_11, cl_12, cl_13, cl_14, cl_15, cl_16, cl_17, cl_18, cl_19, cl_20, cl_21, cl_22, cl_23, cl_24, cl_25, cl_26, cl_27, cl_28, cl_29, cl_30, cl_31, cl_32, cl_33, cl_34, cl_35, cl_36, cl_37, cl_38, cl_39, cl_40, cl_41, cl_42, cl_43, cl_44, cl_45, cl_46, cl_47, cl_48, cl_49]

lemma s5_2 : smaAt closesLit 5 2 = none := by
  norm_num [smaAt, rollMean, hr5, hcll, cl_0, cl_1, cl_2, cl_3, cl_4, cl_5, cl_6, cl_7, cl_8, cl_9, cl_10, cl_11, cl_12, cl_13, cl_14, cl_15, cl_16, cl_17, cl_18, cl_19, cl_20, cl_21, cl_22, cl_23, cl_24, cl_25, cl_26, cl_27, cl_28, cl_29, cl_30, cl_31, cl_32, cl_33, cl_34, cl_35, cl_36, cl_37, cl_38, cl_39, cl_40, cl_41, cl_42, cl_43, cl_44, cl_45, cl_46, cl_47, cl_48, cl_49]

lemma s5_3 : smaAt closesLit 5 3 = none := by
  norm_num [smaAt, rollMean, hr5, hcll, cl_0, cl_1, cl_2, cl_3, cl_4, cl_5, cl_6, cl_7, cl_8, cl_9, cl_10, cl_11, cl_12, cl_13, cl_14, cl_15, cl_16, cl_17, cl_18, cl_19, cl_20, cl_21, cl_22, cl_23, cl_24, cl_25, cl_26, cl_27, cl_28, cl_29, cl_30, cl_31, cl_32, cl_33, cl_34, cl_35, cl_36, cl_37, cl_38, cl_39, cl_40, cl_41, cl_42, cl_43, cl_44, cl_45, cl_46, cl_47, cl_48, cl_49]

lemma s5_4 : smaAt closesLit 5 4 = some (104 : ℚ) := by
  norm_num [smaAt, rollMean, hr5, hcll, cl_0, cl_1, cl_2, cl_3, cl_4, cl_5, cl_6, cl_7, cl_8, cl_9, cl_10, cl_11, cl_12, cl_13, cl_14, cl_15, cl_16, cl_17, cl_18, cl_19, cl_20, cl_21, cl_22, cl_23, cl_24, cl_25, cl_26, cl_27, cl_28, cl_29, cl_30, cl_31, cl_32, cl_33, cl_34, cl_35, cl_36, cl_37, cl_38, cl_39, cl_40, cl_41, cl_42, cl_43, cl_44, cl_45, cl_46, cl_47, cl_48, cl_49]

lemma s5_5 : smaAt closesLit 5 5 = some (106 : ℚ) := by
  norm_num [smaAt, rollMean, hr5, hcll, cl_0, cl_1, cl_2, cl_3, cl_4, cl_5, cl_6, cl_7, cl_8, cl_9, cl_10, cl_11, cl_12, cl_13, cl_14, cl_15, cl_16, cl_17, cl_18, cl_19, cl_20, cl_21, cl_22, cl_23, cl_24, cl_25, cl_26, cl_27, cl_28, cl_29, cl_30, cl_31, cl_32, cl_33, cl_34, cl_35, cl_36, cl_37, cl_38, cl_39, cl_40, cl_41, cl_42, cl_43, cl_44, cl_45, cl_46, cl_47, cl_48, cl_49]

lemma s5_6 : smaAt closesLit 5 6 = some (108 : ℚ) := by
  norm_num [smaAt, rollMean, hr5, hcll, cl_0, cl_1, cl_2, cl_3, cl_4, cl_5, cl_6, cl_7, cl_8, cl_9, cl_10, cl_11, cl_12, cl_13, cl_14, cl_15, cl_16, cl_17, cl_18, cl_19, cl_20, cl_21, cl_22, cl_23, cl_24, cl_25, cl_26, cl_27, cl_28, cl_29, cl_30, cl_31, cl_32, cl_33, cl_34, cl_35, cl_36, cl_37, cl_38, cl_39, cl_40, cl_41, cl_42, cl_43, cl_44, cl_45, cl_46, cl_47, cl_48, cl_49]

lemma s5_7 : smaAt closesLit 5 7 = some (110 : ℚ) := by
  norm_num [smaAt, rollMean, hr5, hcll, cl_0, cl_1, cl_2, cl_3, cl_4, cl_5, cl_6, cl_7, cl_8, cl_9, cl_10, cl_11, cl_12, cl_13, cl_14, cl_15, cl_16, cl_17, cl_18, cl_19, cl_20, cl_21, cl_22, cl_23, cl_24, cl_25, cl_26, cl_27, cl_28, cl_29, cl_30, cl_31, cl_32, cl_33, cl_34, cl_35, cl_36, cl_37, cl_38, cl_39, cl_40, cl_41, cl_42, cl_43, cl_44, cl_45, cl_46, cl_47, cl_48, cl_49]

lemma s5_8 : smaAt closesLit 5 8 = some (112 : ℚ) := by
  norm_num [smaAt, rollMean, hr5, hcll, cl_0, cl_1, cl_2, cl_3, cl_4, cl_5, cl_6, cl_7, cl_8, cl_9, cl_10, cl_11, cl_12, cl_13, cl_14, cl_15, cl_16, cl_17, cl_18, cl_19, cl_20, cl_21, cl_22, cl_23, cl_24, cl_25, cl_26, cl_27, cl_28, cl_29, cl_30, cl_31, cl_32, cl_33, cl_34, cl_35, cl_36, cl_37, cl_38, cl_39, cl_40, cl_41, cl_42, cl_43, cl_44, cl_45, cl_46, cl_47, cl_48, cl_49]

lemma s5_9 : smaAt closesLit 5 9 = some (114 : ℚ) := by
  norm_num [smaAt, rollMean, hr5, hcll, cl_0, cl_1, cl_2, cl_3, cl_4, cl_5, cl_6, cl_7, cl_8, cl_9, cl_10, cl_11, cl_12, cl_13, cl_14, cl_15, cl_16, cl_17, cl_18, cl_19, cl_20, cl_21, cl_22, cl_23, cl_24, cl_25, cl_26, cl_27, cl_28, cl_29, cl_30, cl_31, cl_32, cl_33, cl_34, cl_35, cl_36, cl_37, cl_38, cl_39, cl_40, cl_41, cl_42, cl_43, cl_44, cl_45, cl_46, cl_47, cl_48, cl_49]

lemma s5_10 : smaAt closesLit 5 10 = some (116 : ℚ) := by
  norm_num [smaAt, rollMean, hr5, hcll, cl_0, cl_1, cl_2, cl_3, cl_4, cl_5, cl_6, cl_7, cl_8, cl_9, cl_10, cl_11, cl_12, cl_13, cl_14, cl_15, cl_16, cl_17, cl_18, cl_19, cl_20, cl_21, cl_22, cl_23, cl_24, cl_25, cl_26, cl_27, cl_28, cl_29, cl_30, cl_31, cl_32, cl_33, cl_34, cl_35, cl_36, cl_37, cl_38, cl_39, cl_40, cl_41, cl_42, cl_43, cl_44, cl_45, cl_46, cl_47, cl_48, cl_49]

lemma s5_11 : smaAt closesLit 5 11 = some (118 : ℚ) := by
  norm_num [smaAt, rollMean, hr5, hcll, cl_0, cl_1, cl_2, cl_3, cl_4, cl_5, cl_6, cl_7, cl_8, cl_9, cl_10, cl_11, cl_12, cl_13, cl_14, cl_15, cl_16, cl_17, cl_18, cl_19, cl_20, cl_21, cl_22, cl_23, cl_24, cl_25, cl_26, cl_27, cl_28, cl_29, cl_30, cl_31, cl_32, cl_33, cl_34, cl_35, cl_36, cl_37, cl_38, cl_39, cl_40, cl_41, cl_42, cl_43, cl_44, cl_45, cl_46, cl_47, cl_48, cl_49]

lemma s5_12 : smaAt closesLit 5 12 = some (120 : ℚ) := by
  norm_num [smaAt, rollMean, hr5, hcll, cl_0, cl_1, cl_2, cl_3, cl_4, cl_5, cl_6, cl_7, cl_8, cl_9, cl_10, cl_11, cl_12, cl_13, cl_14, cl_15, cl_16, cl_17, cl_18, cl_19, cl_20, cl_21, cl_22, cl_23, cl_24, cl_25, cl_26, cl_27, cl_28, cl_29, cl_30, cl_31, cl_32, cl_33, cl_34, cl_35, cl_36, cl_37, cl_38, cl_39, cl_40, cl_41, cl_42, cl_43, cl_44, cl_45, cl_46, cl_47, cl_48, cl_49]

lemma s5_13 : smaAt closesLit 5 13 = some (122 : ℚ) := by
  norm_num [smaAt, rollMean, hr5, hcll, cl_0, cl_1, cl_2, cl_3, cl_4, cl_5, cl_6, cl_7, cl_8, cl_9, cl_10, cl_11, cl_12, cl_13, cl_14, cl_15, cl_16, cl_17, cl_18, cl_19, cl_20, cl_21, cl_22, cl_23, cl_24, cl_25, cl_26, cl_27, cl_28, cl_29, cl_30, cl_31, cl_32, cl_33, cl_34, cl_35, cl_36, cl_37, cl_38, cl_39, cl_40, cl_41, cl_42, cl_43, cl_44, cl_45, cl_46, cl_47, cl_48, cl_49]

lemma s5_14 : smaAt closesLit 5 14 = some (124 : ℚ) := by
  norm_num [smaAt, rollMean, hr5, hcll, cl_0, cl_1, cl_2, cl_3, cl_4, cl_5, cl_6, cl_7, cl_8, cl_9, cl_10, cl_11, cl_12, cl_13, cl_14, cl_15, cl_16, cl_17, cl_18, cl_19, cl_20, cl_21, cl_22, cl_23, cl_24, cl_25, cl_26, cl_27, cl_28, cl_29, cl_30, cl_31, cl_32, cl_33, cl_34, cl_35, cl_36, cl_37, cl_38, cl_39, cl_40, cl_41, cl_42, cl_43, cl_44, cl_45, cl_46, cl_47, cl_48, cl_49]

lemma s5_15 : smaAt closesLit 5 15 = some (126 : ℚ) := by
  norm_num [smaAt, rollMean, hr5, hcll, cl_0, cl_1, cl_2, cl_3, cl_4, cl_5, cl_6, cl_7, cl_8, cl_9, cl_10, cl_11, cl_12, cl_13, cl_14, cl_15, cl_16, cl_17, cl_18, cl_19, cl_20, cl_21, cl_22, cl_23, cl_24, cl_25, cl_26, cl_27, cl_28, cl_29, cl_30, cl_31, cl_32, cl_33, cl_34, cl_35, cl_36, cl_37, cl_38, cl_39, cl_40, cl_41, cl_42, cl_43, cl_44, cl_45, cl_46, cl_47, cl_48, cl_49]

lemma s5_16 : smaAt closesLit 5 16 = some (128 : ℚ) := by
  norm_num [smaAt, rollMean, hr5, hcll, cl_0, cl_1, cl_2, cl_3, cl_4, cl_5, cl_6, cl_7, cl_8, cl_9, cl_10, cl_11, cl_12, cl_13, cl_14, cl_15, cl_16, cl_17, cl_18, cl_19, cl_20, cl_21, cl_22, cl_23, cl_24, cl_25, cl_26, cl_27, cl_28, cl_29, cl_30, cl_31, cl_32, cl_33, cl_34, cl_35, cl_36, cl_37, cl_38, cl_39, cl_40, cl_41, cl_42, cl_43, cl_44, cl_45, cl_46, cl_47, cl_48, cl_49]

lemma s5_17 : smaAt closesLit 5 17 = some (130 : ℚ) := by
  norm_num [smaAt, rollMean, hr5, hcll, cl_0, cl_1, cl_2, cl_3, cl_4, cl_5, cl_6, cl_7, cl_8, cl_9, cl_10, cl_11, cl_12, cl_13, cl_14, cl_15, cl_16, cl_17, cl_18, cl_19, cl_20, cl_21, cl_22, cl_23, cl_24, cl_25, cl_26, cl_27, cl_28, cl_29, cl_30, cl_31, cl_32, cl_33, cl_34, cl_35, cl_36, cl_37, cl_38, cl_39, cl_40, cl_41, cl_42, cl_43, cl_44, cl_45, cl_46, cl_47, cl_48, cl_49]

lemma s5_18 : smaAt closesLit 5 18 = some (132 : ℚ) := by
  norm_num [smaAt, rollMean, hr5, hcll, cl_0, cl_1, cl_2, cl_3, cl_4, cl_5, cl_6, cl_7, cl_8, cl_9, cl_10, cl_11, cl_12, cl_13, cl_14, cl_15, cl_16, cl_17, cl_18, cl_19, cl_20, cl_21, cl_22, cl_23, cl_24, cl_25, cl_26, cl_27, cl_28, cl_29, cl_30, cl_31, cl_32, cl_33, cl_34, cl_35, cl_36, cl_37, cl_38, cl_39, cl_40, cl_41, cl_42, cl_43, cl_44, cl_45, cl_46, cl_47, cl_48, cl_49]

lemma s5_19 : smaAt closesLit 5 19 = some (134 : ℚ) := by
  norm_num [smaAt, rollMean, hr5, hcll, cl_0, cl_1, cl_2, cl_3, cl_4, cl_5, cl_6, cl_7, cl_8, cl_9, cl_10, cl_11, cl_12, cl_13, cl_14, cl_15, cl_16, cl_17, cl_18, cl_19, cl_20, cl_21, cl_22, cl_23, cl_24, cl_25, cl_26, cl_27, cl_28, cl_29, cl_30, cl_31, cl_32, cl_33, cl_34, cl_35, cl_36, cl_37, cl_38, cl_39, cl_40, cl_41, cl_42, cl_43, cl_44, cl_45, cl_46, cl_47, cl_48, cl_49]

lemma s5_20 : smaAt closesLit 5 20 = some (136 : ℚ) := by
  norm_num [smaAt, rollMean, hr5, hcll, cl_0, cl_1, cl_2, cl_3, cl_4, cl_5, cl_6, cl_7, cl_8, cl_9, cl_10, cl_11, cl_12, cl_13, cl_14, cl_15, cl_16, cl_17, cl_18, cl_19, cl_20, cl_21, cl_22, cl_23, cl_24, cl_25, cl_26, cl_27, cl_28, cl_29, cl_30, cl_31, cl_32, cl_33, cl_34, cl_35, cl_36, cl_37, cl_38, cl_39, cl_40, cl_41, cl_42, cl_43, cl_44, cl_45, cl_46, cl_47, cl_48, cl_49]

lemma s5_21 : smaAt closesLit 5 21 = some (138 : ℚ) := by
  norm_num [smaAt, rollMean, hr5, hcll, cl_0, cl_1, cl_2, cl_3, cl_4, cl_5, cl_6, cl_7, cl_8, cl_9, cl_10, cl_11, cl_12, cl_13, cl_14, cl_15, cl_16, cl_17, cl_18, cl_19, cl_20, cl_21, cl_22, cl_23, cl_24, cl_25, cl_26, cl_27, cl_28, cl_29, cl_30, cl_31, cl_32, cl_33, cl_34, cl_35, cl_36, cl_37, cl_38, cl_39, cl_40, cl_41, cl_42, cl_43, cl_44, cl_45, cl_46, cl_47, cl_48, cl_49]

lemma s5_22 : smaAt closesLit 5 22 = some (140 : ℚ) := by
  norm_num [smaAt, rollMean, hr5, hcll, cl_0, cl_1, cl_2, cl_3, cl_4, cl_5, cl_6, cl_7, cl_8, cl_9, cl_10, cl_11, cl_12, cl_13, cl_14, cl_15, cl_16, cl_17, cl_18, cl_19, cl_20, cl_21, cl_22, cl_23, cl_24, cl_25, cl_26, cl_27, cl_28, cl_29, cl_30, cl_31, cl_32, cl_33, cl_34, cl_35, cl_36, cl_37, cl_38, cl_39, cl_40, cl_41, cl_42, cl_43, cl_44, cl_45, cl_46, cl_47, cl_48, cl_49]

lemma s5_23 : smaAt closesLit 5 23 = some (142 : ℚ) := by
  norm_num [smaAt, rollMean, hr5, hcll, cl_0, cl_1, cl_2, cl_3, cl_4, cl_5, cl_6, cl_7, cl_8, cl_9, cl_10, cl_11, cl_12, cl_13, cl_14, cl_15, cl_16, cl_17, cl_18, cl_19, cl_20, cl_21, cl_22, cl_23, cl_24, cl_25, cl_26, cl_27, cl_28, cl_29, cl_30, cl_31, cl_32, cl_33, cl_34, cl_35, cl_36, cl_37, cl_38, cl_39, cl_40, cl_41, cl_42, cl_43, cl_44, cl_45, cl_46, cl_47, cl_48, cl_49]

lemma s5_24 : smaAt closesLit 5 24 = some (144 : ℚ) := by
  norm_num [smaAt, rollMean, hr5, hcll, cl_0, cl_1, cl_2, cl_3, cl_4, cl_5, cl_6, cl_7, cl_8, cl_9, cl_10, cl_11, cl_12, cl_13, cl_14, cl_15, cl_16, cl_17, cl_18, cl_19, cl_20, cl_21, cl_22, cl_23, cl_24, cl_25, cl_26, cl_27, cl_28, cl_29, cl_30, cl_31, cl_32, cl_33, cl_34, cl_35, cl_36, cl_37, cl_38, cl_39, cl_40, cl_41, cl_42, cl_43, cl_44, cl_45, cl_46, cl_47, cl_48, cl_49]

lemma s5_25 : smaAt closesLit 5 25 = some (146 : ℚ) := by
  norm_num [smaAt, rollMean, hr5, hcll, cl_0, cl_1, cl_2, cl_3, cl_4, cl_5, cl_6, cl_7, cl_8, cl_9, cl_10, cl_11, cl_12, cl_13, cl_14, cl_15, cl_16, cl_17, cl_18, cl_19, cl_20, cl_21, cl_22, cl_23, cl_24, cl_25, cl_26, cl_27, cl_28, cl_29, cl_30, cl_31, cl_32, cl_33, cl_34, cl_35, cl_36, cl_37, cl_38, cl_39, cl_40, cl_41, cl_42, cl_43, cl_44, cl_45, cl_46, cl_47, cl_48, cl_49]

lemma s5_26 : smaAt closesLit 5 26 = some (148 : ℚ) := by
  norm_num [smaAt, rollMean, hr5, hcll, cl_0, cl_1, cl_2, cl_3, cl_4, cl_5, cl_6, cl_7, cl_8, cl_9, cl_10, cl_11, cl_12, cl_13, cl_14, cl_15, cl_16, cl_17, cl_18, cl_19, cl_20, cl_21, cl_22, cl_23, cl_24, cl_25, cl_26, cl_27, cl_28, cl_29, cl_30, cl_31, cl_32, cl_33, cl_34, cl_35, cl_36, cl_37, cl_38, cl_39, cl_40, cl_41, cl_42, cl_43, cl_44, cl_45, cl_46, cl_47, cl_48, cl_49]

lemma s5_27 : smaAt closesLit 5 27 = some (150 : ℚ) := by
  norm_num [smaAt, rollMean, hr5, hcll, cl_0, cl_1, cl_2, cl_3, cl_4, cl_5, cl_6, cl_7, cl_8, cl_9, cl_10, cl_11, cl_12, cl_13, cl_14, cl_15, cl_16, cl_17, cl_18, cl_19, cl_20, cl_21, cl_22, cl_23, cl_24, cl_25, cl_26, cl_27, cl_28, cl_29, cl_30, cl_31, cl_32, cl_33, cl_34, cl_35, cl_36, cl_37, cl_38, cl_39, cl_40, cl_41, cl_42, cl_43, cl_44, cl_45, cl_46, cl_47, cl_48, cl_49]

lemma s5_28 : smaAt closesLit 5 28 = some (152 : ℚ) := by
  norm_num [smaAt, rollMean, hr5, hcll, cl_0, cl_1, cl_2, cl_3, cl_4, cl_5, cl_6, cl_7, cl_8, cl_9, cl_10, cl_11, cl_12, cl_13, cl_14, cl_15, cl_16, cl_17, cl_18, cl_19, cl_20, cl_21, cl_22, cl_23, cl_24, cl_25, cl_26, cl_27, cl_28, cl_29, cl_30, cl_31, cl_32, cl_33, cl_34, cl_35, cl_36, cl_37, cl_38, cl_39, cl_40, cl_41, cl_42, cl_43, cl_44, cl_45, cl_46, cl_47, cl_48, cl_49]

lemma s5_29 : smaAt closesLit 5 29 = some (154 : ℚ) := by
  norm_num [smaAt, rollMean, hr5, hcll, cl_0, cl_1, cl_2, cl_3, cl_4, cl_5, cl_6, cl_7, cl_8, cl_9, cl_10, cl_11, cl_12, cl_13, cl_14, cl_15, cl_16, cl_17, cl_18, cl_19, cl_20, cl_21, cl_22, cl_23, cl_24, cl_25, cl_26, cl_27, cl_28, cl_29, cl_30, cl_31, cl_32, cl_33, cl_34, cl_35, cl_36, cl_37, cl_38, cl_39, cl_40, cl_41, cl_42, cl_43, cl_44, cl_45, cl_46, cl_47, cl_48, cl_49]

lemma s5_30 : smaAt closesLit 5 30 = some (156 : ℚ) := by
  norm_num [smaAt, rollMean, hr5, hcll, cl_0, cl_1, cl_2, cl_3, cl_4, cl_5, cl_6, cl_7, cl_8, cl_9, cl_10, cl_11, cl_12, cl_13, cl_14, cl_15, cl_16, cl_17, cl_18, cl_19, cl_20, cl_21, cl_22, cl_23, cl_24, cl_25, cl_26, cl_27, cl_28, cl_29, cl_30, cl_31, cl_32, cl_33, cl_34, cl_35, cl_36, cl_37, cl_38, cl_39, cl_40, cl_41, cl_42, cl_43, cl_44, cl_45, cl_46, cl_47, cl_48, cl_49]

lemma s5_31 : smaAt closesLit 5 31 = some (158 : ℚ) := by
  norm_num [smaAt, rollMean, hr5, hcll, cl_0, cl_1, cl_2, cl_3, cl_4, cl_5, cl_6, cl_7, cl_8, cl_9, cl_10, cl_11, cl_12, cl_13, cl_14, cl_15, cl_16, cl_17, cl_18, cl_19, cl_20, cl_21, cl_22, cl_23, cl_24, cl_25, cl_26, cl_27, cl_28, cl_29, cl_30, cl_31, cl_32, cl_33, cl_34, cl_35, cl_36, cl_37, cl_38, cl_39, cl_40, cl_41, cl_42, cl_43, cl_44, cl_45, cl_46, cl_47, cl_48, cl_49]

lemma s5_32 : smaAt closesLit 5 32 = some (160 : ℚ) := by
  norm_num [smaAt, rollMean, hr5, hcll, cl_0, cl_1, cl_2, cl_3, cl_4, cl_5, cl_6, cl_7, cl_8, cl_9, cl_10, cl_11, cl_12, cl_13, cl_14, cl_15, cl_16, cl_17, cl_18, cl_19, cl_20, cl_21, cl_22, cl_23, cl_24, cl_25, cl_26, cl_27, cl_28, cl_29, cl_30, cl_31, cl_32, cl_33, cl_34, cl_35, cl_36, cl_37, cl_38, cl_39, cl_40, cl_41, cl_42, cl_43, cl_44, cl_45, cl_46, cl_47, cl_48, cl_49]

lemma s5_33 : smaAt closesLit 5 33 = some (162 : ℚ) := by
  norm_num [smaAt, rollMean, hr5, hcll, cl_0, cl_1, cl_2, cl_3, cl_4, cl_5, cl_6, cl_7, cl_8, cl_9, cl_10, cl_11, cl_12, cl_13, cl_14, cl_15, cl_16, cl_17, cl_18, cl_19, cl_20, cl_21, cl_22, cl_23, cl_24, cl_25, cl_26, cl_27, cl_28, cl_29, cl_30, cl_31, cl_32, cl_33, cl_34, cl_35, cl_36, cl_37, cl_38, cl_39, cl_40, cl_41, cl_42, cl_43, cl_44, cl_45, cl_46, cl_47, cl_48, cl_49]

lemma s5_34 : smaAt closesLit 5 34 = some (164 : ℚ) := by
  norm_num [smaAt, rollMean, hr5, hcll, cl_0, cl_1, cl_2, cl_3, cl_4, cl_5, cl_6, cl_7, cl_8, cl_9, cl_10, cl_11, cl_12, cl_13, cl_14, cl_15, cl_16, cl_17, cl_18, cl_19, cl_20, cl_21, cl_22, cl_23, cl_24, cl_25, cl_26, cl_27, cl_28, cl_29, cl_30, cl_31, cl_32, cl_33, cl_34, cl_35, cl_36, cl_37, cl_38, cl_39, cl_40, cl_41, cl_42, cl_43, cl_44, cl_45, cl_46, cl_47, cl_48, cl_49]

lemma s5_35 : smaAt closesLit 5 35 = some (166 : ℚ) := by
  norm_num [smaAt, rollMean, hr5, hcll, cl_0, cl_1, cl_2, cl_3, cl_4, cl_5, cl_6, cl_7, cl_8, cl_9, cl_10, cl_11, cl_12, cl_13, cl_14, cl_15, cl_16, cl_17, cl_18, cl_19, cl_20, cl_21, cl_22, cl_23, cl_24, cl_25, cl_26, cl_27, cl_28, cl_29, cl_30, cl_31, cl_32, cl_33, cl_34, cl_35, cl_36, cl_37, cl_38, cl_39, cl_40, cl_41, cl_42, cl_43, cl_44, cl_45, cl_46, cl_47, cl_48, cl_49]

lemma s5_36 : smaAt closesLit 5 36 = some (168 : ℚ) := by
  norm_num [smaAt, rollMean, hr5, hcll, cl_0, cl_1, cl_2, cl_3, cl_4, cl_5, cl_6, cl_7, cl_8, cl_9, cl_10, cl_11, cl_12, cl_13, cl_14, cl_15, cl_16, cl_17, cl_18, cl_19, cl_20, cl_21, cl_22, cl_23, cl_24, cl_25, cl_26, cl_27, cl_28, cl_29, cl_30, cl_31, cl_32, cl_33, cl_34, cl_35, cl_36, cl_37, cl_38, cl_39, cl_40, cl_41, cl_42, cl_43, cl_44, cl_45, cl_46, cl_47, cl_48, cl_49]

lemma s5_37 : smaAt closesLit 5 37 = some (170 : ℚ) := by
  norm_num [smaAt, rollMean, hr5, hcll, cl_0, cl_1, cl_2, cl_3, cl_4, cl_5, cl_6, cl_7, cl_8, cl_9, cl_10, cl_11, cl_12, cl_13, cl_14, cl_15, cl_16, cl_17, cl_18, cl_19, cl_20, cl_21, cl_22, cl_23, cl_24, cl_25, cl_26, cl_27, cl_28, cl_29, cl_30, cl_31, cl_32, cl_33, cl_34, cl_35, cl_36, cl_37, cl_38, cl_39, cl_40, cl_41, cl_42, cl_43, cl_44, cl_45, cl_46, cl_47, cl_48, cl_49]

lemma s5_38 : smaAt closesLit 5 38 = some (172 : ℚ) := by
  norm_num [smaAt, rollMean, hr5, hcll, cl_0, cl_1, cl_2, cl_3, cl_4, cl_5, cl_6, cl_7, cl_8, cl_9, cl_10, cl_11, cl_12, cl_13, cl_14, cl_15, cl_16, cl_17, cl_18, cl_19, cl_20, cl_21, cl_22, cl_23, cl_24, cl_25, cl_26, cl_27, cl_28, cl_29, cl_30, cl_31, cl_32, cl_33, cl_34, cl_35, cl_36, cl_37, cl_38, cl_39, cl_40, cl_41, cl_42, cl_43, cl_44, cl_45, cl_46, cl_47, cl_48, cl_49]

lemma s5_39 : smaAt closesLit 5 39 = some (174 : ℚ) := by
  norm_num [smaAt, rollMean, hr5, hcll, cl_0, cl_1, cl_2, cl_3, cl_4, cl_5, cl_6, cl_7, cl_8, cl_9, cl_10, cl_11, cl_12, cl_13, cl_14, cl_15, cl_16, cl_17, cl_18, cl_19, cl_20, cl_21, cl_22, cl_23, cl_24, cl_25, cl_26, cl_27, cl_28, cl_29, cl_30, cl_31, cl_32, cl_33, cl_34, cl_35, cl_36, cl_37, cl_38, cl_39, cl_40, cl_41, cl_42, cl_43, cl_44, cl_45, cl_46, cl_47, cl_48, cl_49]

lemma s5_40 : smaAt closesLit 5 40 = some (176 : ℚ) := by
  norm_num [smaAt, rollMean, hr5, hcll, cl_0, cl_1, cl_2, cl_3, cl_4, cl_5, cl_6, cl_7, cl_8, cl_9, cl_10, cl_11, cl_12, cl_13, cl_14, cl_15, cl_16, cl_17, cl_18, cl_19, cl_20, cl_21, cl_22, cl_23, cl_24, cl_25, cl_26, cl_27, cl_28, cl_29, cl_30, cl_31, cl_32, cl_33, cl_34, cl_35, cl_36, cl_37, cl_38, cl_39, cl_40, cl_41, cl_42, cl_43, cl_44, cl_45, cl_46, cl_47, cl_48, cl_49]

lemma s5_41 : smaAt closesLit 5 41 = some (178 : ℚ) := by
  norm_num [smaAt, rollMean, hr5, hcll, cl_0, cl_1, cl_2, cl_3, cl_4, cl_5, cl_6, cl_7, cl_8, cl_9, cl_10, cl_11, cl_12, cl_13, cl_14, cl_15, cl_16, cl_17, cl_18, cl_19, cl_20, cl_21, cl_22, cl_23, cl_24, cl_25, cl_26, cl_27, cl_28, cl_29, cl_30, cl_31, cl_32, cl_33, cl_34, cl_35, cl_36, cl_37, cl_38, cl_39, cl_40, cl_41, cl_42, cl_43, cl_44, cl_45, cl_46, cl_47, cl_48, cl_49]

lemma s5_42 : smaAt closesLit 5 42 = some (180 : ℚ) := by
  norm_num [smaAt, rollMean, hr5, hcll, cl_0, cl_1, cl_2, cl_3, cl_4, cl_5, cl_6, cl_7, cl_8, cl_9, cl_10, cl_11, cl_12, cl_13, cl_14, cl_15, cl_16, cl_17, cl_18, cl_19, cl_20, cl_21, cl_22, cl_23, cl_24, cl_25, cl_26, cl_27, cl_28, cl_29, cl_30, cl_31, cl_32, cl_33, cl_34, cl_35, cl_36, cl_37, cl_38, cl_39, cl_40, cl_41, cl_42, cl_43, cl_44, cl_45, cl_46, cl_47, cl_48, cl_49]

lemma s5_43 : smaAt closesLit 5 43 = some (182 : ℚ) := by
  norm_num [smaAt, rollMean, hr5, hcll, cl_0, cl_1, cl_2, cl_3, cl_4, cl_5, cl_6, cl_7, cl_8, cl_9, cl_10, cl_11, cl_12, cl_13, cl_14, cl_15, cl_16, cl_17, cl_18, cl_19, cl_20, cl_21, cl_22, cl_23, cl_24, cl_25, cl_26, cl_27, cl_28, cl_29, cl_30, cl_31, cl_32, cl_33, cl_34, cl_35, cl_36, cl_37, cl_38, cl_39, cl_40, cl_41, cl_42, cl_43, cl_44, cl_45, cl_46, cl_47, cl_48, cl_49]

lemma s5_44 : smaAt closesLit 5 44 = some (184 : ℚ) := by
  norm_num [smaAt, rollMean, hr5, hcll, cl_0, cl_1, cl_2, cl_3, cl_4, cl_5, cl_6, cl_7, cl_8, cl_9, cl_10, cl_11, cl_12, cl_13, cl_14, cl_15, cl_16, cl_17, cl_18, cl_19, cl_20, cl_21, cl_22, cl_23, cl_24, cl_25, cl_26, cl_27, cl_28, cl_29, cl_30, cl_31, cl_32, cl_33, cl_34, cl_35, cl_36, cl_37, cl_38, cl_39, cl_40, cl_41, cl_42, cl_43, cl_44, cl_45, cl_46, cl_47, cl_48, cl_49]

lemma s5_45 : smaAt closesLit 5 45 = some (186 : ℚ) := by
  norm_num [smaAt, rollMean, hr5, hcll, cl_0, cl_1, cl_2, cl_3, cl_4, cl_5, cl_6, cl_7, cl_8, cl_9, cl_10, cl_11, cl_12, cl_13, cl_14, cl_15, cl_16, cl_17, cl_18, cl_19, cl_20, cl_21, cl_22, cl_23, cl_24, cl_25, cl_26, cl_27, cl_28, cl_29, cl_30, cl_31, cl_32, cl_33, cl_34, cl_35, cl_36, cl_37, cl_38, cl_39, cl_40, cl_41, cl_42, cl_43, cl_44, cl_45, cl_46, cl_47, cl_48, cl_49]

lemma s5_46 : smaAt closesLit 5 46 = some (188 : ℚ) := by
  norm_num [smaAt, rollMean, hr5, hcll, cl_0, cl_1, cl_2, cl_3, cl_4, cl_5, cl_6, cl_7, cl_8, cl_9, cl_10, cl_11, cl_12, cl_13, cl_14, cl_15, cl_16, cl_17, cl_18, cl_19, cl_20, cl_21, cl_22, cl_23, cl_24, cl_25, cl_26, cl_27, cl_28, cl_29, cl_30, cl_31, cl_32, cl_33, cl_34, cl_35, cl_36, cl_37, cl_38, cl_39, cl_40, cl_41, cl_42, cl_43, cl_44, cl_45, cl_46, cl_47, cl_48, cl_49]

lemma s5_47 : smaAt closesLit 5 47 = some (190 : ℚ) := by
  norm_num [smaAt, rollMean, hr5, hcll, cl_0, cl_1, cl_2, cl_3, cl_4, cl_5, cl_6, cl_7, cl_8, cl_9, cl_10, cl_11, cl_12, cl_13, cl_14, cl_15, cl_16, cl_17, cl_18, cl_19, cl_20, cl_21, cl_22, cl_23, cl_24, cl_25, cl_26, cl_27, cl_28, cl_29, cl_30, cl_31, cl_32, cl_33, cl_34, cl_35, cl_36, cl_37, cl_38, cl_39, cl_40, cl_41, cl_42, cl_43, cl_44, cl_45, cl_46, cl_47, cl_48, cl_49]

lemma s5_48 : smaAt closesLit 5 48 = some (192 : ℚ) := by
  norm_num [smaAt, rollMean, hr5, hcll, cl_0, cl_1, cl_2, cl_3, cl_4, cl_5, cl_6, cl_7, cl_8, cl_9, cl_10, cl_11, cl_12, cl_13, cl_14, cl_15, cl_16, cl_17, cl_18, cl_19, cl_20, cl_21, cl_22, cl_23, cl_24, cl_25, cl_26, cl_27, cl_28, cl_29, cl_30, cl_31, cl_32, cl_33, cl_34, cl_35, cl_36, cl_37, cl_38, cl_39, cl_40, cl_41, cl_42, cl_43, cl_44, cl_45, cl_46, cl_47, cl_48, cl_49]

lemma s5_49 : smaAt closesLit 5 49 = some ((972 : ℚ) / 5) := by
  norm_num [smaAt, rollMean, hr5, hcll, cl_0, cl_1, cl_2, cl_3, cl_4, cl_5, cl_6, cl_7, cl_8, cl_9, cl_10, cl_11, cl_12, cl_13, cl_14, cl_15, cl_16, cl_17, cl_18, cl_19, cl_20, cl_21, cl_22, cl_23, cl_24, cl_25, cl_26, cl_27, cl_28, cl_29, cl_30, cl_31, cl_32, cl_33, cl_34, cl_35, cl_36, cl_37, cl_38, cl_39, cl_40, cl_41, cl_42, cl_43, cl_44, cl_45, cl_46, cl_47, cl_48, cl_49]

lemma s20_0 : smaAt closesLit 20 0 = none := by
  norm_num [smaAt, rollMean, hr20, hcll, cl_0, cl_1, cl_2, cl_3, cl_4, cl_5, cl_6, cl_7, cl_8, cl_9, cl_10, cl_11, cl_12, cl_13, cl_14, cl_15, cl_16, cl_17, cl_18, cl_19, cl_20, cl_21, cl_22, cl_23, cl_24, cl_25, cl_26, cl_27, cl_28, cl_29, cl_30, cl_31, cl_32, cl_33, cl_34, cl_35, cl_36, cl_37, cl_38, cl_39, cl_40, cl_41, cl_42, cl_43, cl_44, cl_45, cl_46, cl_47, cl_48, cl_49]

lemma s20_1 : smaAt closesLit 20 1 = none := by
  norm_num [smaAt, rollMean, hr20, hcll, cl_0, cl_1, cl_2, cl_3, cl_4, cl_5, cl_6, cl_7, cl_8, cl_9, cl_10, cl_11, cl_12, cl_13, cl_14, cl_15, cl_16, cl_17, cl_18, cl_19, cl_20, cl_21, cl_22, cl_23, cl_24, cl_25, cl_26, cl_27, cl_28, cl_29, cl_30, cl_31, cl_32, cl_33, cl_34, cl_35, cl_36, cl_37, cl_38, cl_39, cl_40, cl_41, cl_42, cl_43, cl_44, cl_45, cl_46, cl_47, cl_48, cl_49]

lemma s20_2 : smaAt closesLit 20 2 = none := by
  norm_num [smaAt, rollMean, hr20, hcll, cl_0, cl_1, cl_2, cl_3, cl_4, cl_5, cl_6, cl_7, cl_8, cl_9, cl_10, cl_11, cl_12, cl_13, cl_14, cl_15, cl_16, cl_17, cl_18, cl_19, cl_20, cl_21, cl_22, cl_23, cl_24, cl_25, cl_26, cl_27, cl_28, cl_29, cl_30, cl_31, cl_32, cl_33, cl_34, cl_35, cl_36, cl_37, cl_38, cl_39, cl_40, cl_41, cl_42, cl_43, cl_44, cl_45, cl_46, cl_47, cl_48, cl_49]

lemma s20_3 : smaAt closesLit 20 3 = none := by
  norm_num [smaAt, rollMean, hr20, hcll, cl_0, cl_1, cl_2, cl_3, cl_4, cl_5, cl_6, cl_7, cl_8, cl_9, cl_10, cl_11, cl_12, cl_13, cl_14, cl_15, cl_16, cl_17, cl_18, cl_19, cl_20, cl_21, cl_22, cl_23, cl_24, cl_25, cl_26, cl_27, cl_28, cl_29, cl_30, cl_31, cl_32, cl_33, cl_34, cl_35, cl_36, cl_37, cl_38, cl_39, cl_40, cl_41, cl_42, cl_43, cl_44, cl_45, cl_46, cl_47, cl_48, cl_49]

lemma s20_4 : smaAt closesLit 20 4 = none := by
  norm_num [smaAt, rollMean, hr20, hcll, cl_0, cl_1, cl_2, cl_3, cl_4, cl_5, cl_6, cl_7, cl_8, cl_9, cl_10, cl_11, cl_12, cl_13, cl_14, cl_15, cl_16, cl_17, cl_18, cl_19, cl_20, cl_21, cl_22, cl_23, cl_24, cl_25, cl_26, cl_27, cl_28, cl_29, cl_30, cl_31, cl_32, cl_33, cl_34, cl_35, cl_36, cl_37, cl_38, cl_39, cl_40, cl_41, cl_42, cl_43, cl_44, cl_45, cl_46, cl_47, cl_48, cl_49]

lemma s20_5 : smaAt closesLit 20 5 = none := by
  norm_num [smaAt, rollMean, hr20, hcll, cl_0, cl_1, cl_2, cl_3, cl_4, cl_5, cl_6, cl_7, cl_8, cl_9, cl_10, cl_11, cl_12, cl_13, cl_14, cl_15, cl_16, cl_17, cl_18, cl_19, cl_20, cl_21, cl_22, cl_23, cl_24, cl_25, cl_26, cl_27, cl_28, cl_29, cl_30, cl_31, cl_32, cl_33, cl_34, cl_35, cl_36, cl_37, cl_38, cl_39, cl_40, cl_41, cl_42, cl_43, cl_44, cl_45, cl_46, cl_47, cl_48, cl_49]

lemma s20_6 : smaAt closesLit 20 6 = none := by
  norm_num [smaAt, rollMean, hr20, hcll, cl_0, cl_1, cl_2, cl_3, cl_4, cl_5, cl_6, cl_7, cl_8, cl_9, cl_10, cl_11, cl_12, cl_13, cl_14, cl_15, cl_16, cl_17, cl_18, cl_19, cl_20, cl_21, cl_22, cl_23, cl_24, cl_25, cl_26, cl_27, cl_28, cl_29, cl_30, cl_31, cl_32, cl_33, cl_34, cl_35, cl_36, cl_37, cl_38, cl_39, cl_40, cl_41, cl_42, cl_43, cl_44, cl_45, cl_46, cl_47, cl_48, cl_49]

lemma s20_7 : smaAt closesLit 20 7 = none := by
  norm_num [smaAt, rollMean, hr20, hcll, cl_0, cl_1, cl_2, cl_3, cl_4, cl_5, cl_6, cl_7, cl_8, cl_9, cl_10, cl_11, cl_12, cl_13, cl_14, cl_15, cl_16, cl_17, cl_18, cl_19, cl_20, cl_21, cl_22, cl_23, cl_24, cl_25, cl_26, cl_27, cl_28, cl_29, cl_30, cl_31, cl_32, cl_33, cl_34, cl_35, cl_36, cl_37, cl_38, cl_39, cl_40, cl_41, cl_42, cl_43, cl_44, cl_45, cl_46, cl_47, cl_48, cl_49]

lemma s20_8 : smaAt closesLit 20 8 = none := by
  norm_num [smaAt, rollMean, hr20, hcll, cl_0, cl_1, cl_2, cl_3, cl_4, cl_5, cl_6, cl_7, cl_8, cl_9, cl_10, cl_11, cl_12, cl_13, cl_14, cl_15, cl_16, cl_17, cl_18, cl_19, cl_20, cl_21, cl_22, cl_23, cl_24, cl_25, cl_26, cl_27, cl_28, cl_29, cl_30, cl_31, cl_32, cl_33, cl_34, cl_35, cl_36, cl_37, cl_38, cl_39, cl_40, cl_41, cl_42, cl_43, cl_44, cl_45, cl_46, cl_47, cl_48, cl_49]

lemma s20_9 : smaAt closesLit 20 9 = none := by
  norm_num [smaAt, rollMean, hr20, hcll, cl_0, cl_1, cl_2, cl_3, cl_4, cl_5, cl_6, cl_7, cl_8, cl_9, cl_10, cl_11, cl_12, cl_13, cl_14, cl_15, cl_16, cl_17, cl_18, cl_19, cl_20, cl_21, cl_22, cl_23, cl_24, cl_25, cl_26, cl_27, cl_28, cl_29, cl_30, cl_31, cl_32, cl_33, cl_34, cl_35, cl_36, cl_37, cl_38, cl_39, cl_40, cl_41, cl_42, cl_43, cl_44, cl_45, cl_46, cl_47, cl_48, cl_49]

lemma s20_10 : smaAt closesLit 20 10 = none := by
  norm_num [smaAt, rollMean, hr20, hcll, cl_0, cl_1, cl_2, cl_3, cl_4, cl_5, cl_6, cl_7, cl_8, cl_9, cl_10, cl_11, cl_12, cl_13, cl_14, cl_15, cl_16, cl_17, cl_18, cl_19, cl_20, cl_21, cl_22, cl_23, cl_24, cl_25, cl_26, cl_27, cl_28, cl_29, cl_30, cl_31, cl_32, cl_33, cl_34, cl_35, cl_36, cl_37, cl_38, cl_39, cl_40, cl_41, cl_42, cl_43, cl_44, cl_45, cl_46, cl_47, cl_48, cl_49]

lemma s20_11 : smaAt closesLit 20 11 = none := by
  norm_num [smaAt, rollMean, hr20, hcll, cl_0, cl_1, cl_2, cl_3, cl_4, cl_5, cl_6, cl_7, cl_8, cl_9, cl_10, cl_11, cl_12, cl_13, cl_14, cl_15, cl_16, cl_17, cl_18, cl_19, cl_20, cl_21, cl_22, cl_23, cl_24, cl_25, cl_26, cl_27, cl_28, cl_29, cl_30, cl_31, cl_32, cl_33, cl_34, cl_35, cl_36, cl_37, cl_38, cl_39, cl_40, cl_41, cl_42, cl_43, cl_44, cl_45, cl_46, cl_47, cl_48, cl_49]

lemma s20_12 : smaAt closesLit 20 12 = none := by
  norm_num [smaAt, rollMean, hr20, hcll, cl_0, cl_1, cl_2, cl_3, cl_4, cl_5, cl_6, cl_7, cl_8, cl_9, cl_10, cl_11, cl_12, cl_13, cl_14, cl_15, cl_16, cl_17, cl_18, cl_19, cl_20, cl_21, cl_22, cl_23, cl_24, cl_25, cl_26, cl_27, cl_28, cl_29, cl_30, cl_31, cl_32, cl_33, cl_34, cl_35, cl_36, cl_37, cl_38, cl_39, cl_40, cl_41, cl_42, cl_43, cl_44, cl_45, cl_46, cl_47, cl_48, cl_49]

lemma s20_13 : smaAt closesLit 20 13 = none := by
  norm_num [smaAt, rollMean, hr20, hcll, cl_0, cl_1, cl_2, cl_3, cl_4, cl_5, cl_6, cl_7, cl_8, cl_9, cl_10, cl_11, cl_12, cl_13, cl_14, cl_15, cl_16, cl_17, cl_18, cl_19, cl_20, cl_21, cl_22, cl_23, cl_24, cl_25, cl_26, cl_27, cl_28, cl_29, cl_30, cl_31, cl_32, cl_33, cl_34, cl_35, cl_36, cl_37, cl_38, cl_39, cl_40, cl_41, cl_42, cl_43, cl_44, cl_45, cl_46, cl_47, cl_48, cl_49]

lemma s20_14 : smaAt closesLit 20 14 = none := by
  norm_num [smaAt, rollMean, hr20, hcll, cl_0, cl_1, cl_2, cl_3, cl_4, cl_5, cl_6, cl_7, cl_8, cl_9, cl_10, cl_11, cl_12, cl_13, cl_14, cl_15, cl_16, cl_17, cl_18, cl_19, cl_20, cl_21, cl_22, cl_23, cl_24, cl_25, cl_26, cl_27, cl_28, cl_29, cl_30, cl_31, cl_32, cl_33, cl_34, cl_35, cl_36, cl_37, cl_38, cl_39, cl_40, cl_41, cl_42, cl_43, cl_44, cl_45, cl_46, cl_47, cl_48, cl_49]

lemma s20_15 : smaAt closesLit 20 15 = none := by
  norm_num [smaAt, rollMean, hr20, hcll, cl_0, cl_1, cl_2, cl_3, cl_4, cl_5, cl_6, cl_7, cl_8, cl_9, cl_10, cl_11, cl_12, cl_13, cl_14, cl_15, cl_16, cl_17, cl_18, cl_19, cl_20, cl_21, cl_22, cl_23, cl_24, cl_25, cl_26, cl_27, cl_28, cl_29, cl_30, cl_31, cl_32, cl_33, cl_34, cl_35, cl_36, cl_37, cl_38, cl_39, cl_40, cl_41, cl_42, cl_43, cl_44, cl_45, cl_46, cl_47, cl_48, cl_49]

lemma s20_16 : smaAt closesLit 20 16 = none := by
  norm_num [smaAt, rollMean, hr20, hcll, cl_0, cl_1, cl_2, cl_3, cl_4, cl_5, cl_6, cl_7, cl_8, cl_9, cl_10, cl_11, cl_12, cl_13, cl_14, cl_15, cl_16, cl_17, cl_18, cl_19, cl_20, cl_21, cl_22, cl_23, cl_24, cl_25, cl_26, cl_27, cl_28, cl_29, cl_30, cl_31, cl_32, cl_33, cl_34, cl_35, cl_36, cl_37, cl_38, cl_39, cl_40, cl_41, cl_42, cl_43, cl_44, cl_45, cl_46, cl_47, cl_48, cl_49]

lemma s20_17 : smaAt closesLit 20 17 = none := by
  norm_num [smaAt, rollMean, hr20, hcll, cl_0, cl_1, cl_2, cl_3, cl_4, cl_5, cl_6, cl_7, cl_8, cl_9, cl_10, cl_11, cl_12, cl_13, cl_14, cl_15, cl_16, cl_17, cl_18, cl_19, cl_20, cl_21, cl_22, cl_23, cl_24, cl_25, cl_26, cl_27, cl_28, cl_29, cl_30, cl_31, cl_32, cl_33, cl_34, cl_35, cl_36, cl_37, cl_38, cl_39, cl_40, cl_41, cl_42, cl_43, cl_44, cl_45, cl_46, cl_47, cl_48, cl_49]

lemma s20_18 : smaAt closesLit 20 18 = none := by
  norm_num [smaAt, rollMean, hr20, hcll, cl_0, cl_1, cl_2, cl_3, cl_4, cl_5, cl_6, cl_7, cl_8, cl_9, cl_10, cl_11, cl_12, cl_13, cl_14, cl_15, cl_16, cl_17, cl_18, cl_19, cl_20, cl_21, cl_22, cl_23, cl_24, cl_25, cl_26, cl_27, cl_28, cl_29, cl_30, cl_31, cl_32, cl_33, cl_34, cl_35, cl_36, cl_37, cl_38, cl_39, cl_40, cl_41, cl_42, cl_43, cl_44, cl_45, cl_46, cl_47, cl_48, cl_49]

lemma s20_19 : smaAt closesLit 20 19 = some (119 : ℚ) := by
  norm_num [smaAt, rollMean, hr20, hcll, cl_0, cl_1, cl_2, cl_3, cl_4, cl_5, cl_6, cl_7, cl_8, cl_9, cl_10, cl_11, cl_12, cl_13, cl_14, cl_15, cl_16, cl_17, cl_18, cl_19, cl_20, cl_21, cl_22, cl_23, cl_24, cl_25, cl_26, cl_27, cl_28, cl_29, cl_30, cl_31, cl_32, cl_33, cl_34, cl_35, cl_36, cl_37, cl_38, cl_39, cl_40, cl_41, cl_42, cl_43, cl_44, cl_45, cl_46, cl_47, cl_48, cl_49]

lemma s20_20 : smaAt closesLit 20 20 = some (121 : ℚ) := by
  norm_num [smaAt, rollMean, hr20, hcll, cl_0, cl_1, cl_2, cl_3, cl_4, cl_5, cl_6, cl_7, cl_8, cl_9, cl_10, cl_11, cl_12, cl_13, cl_14, cl_15, cl_16, cl_17, cl_18, cl_19, cl_20, cl_21, cl_22, cl_23, cl_24, cl_25, cl_26, cl_27, cl_28, cl_29, cl_30, cl_31, cl_32, cl_33, cl_34, cl_35, cl_36, cl_37, cl_38, cl_39, cl_40, cl_41, cl_42, cl_43, cl_44, cl_45, cl_46, cl_47, cl_48, cl_49]

lemma s20_21 : smaAt closesLit 20 21 = some (123 : ℚ) := by
  norm_num [smaAt, rollMean, hr20, hcll, cl_0, cl_1, cl_2, cl_3, cl_4, cl_5, cl_6, cl_7, cl_8, cl_9, cl_10, cl_11, cl_12, cl_13, cl_14, cl_15, cl_16, cl_17, cl_18, cl_19, cl_20, cl_21, cl_22, cl_23, cl_24, cl_25, cl_26, cl_27, cl_28, cl_29, cl_30, cl_31, cl_32, cl_33, cl_34, cl_35, cl_36, cl_37, cl_38, cl_39, cl_40, cl_41, cl_42, cl_43, cl_44, cl_45, cl_46, cl_47, cl_48, cl_49]

lemma s20_22 : smaAt closesLit 20 22 = some (125 : ℚ) := by
  norm_num [smaAt, rollMean, hr20, hcll, cl_0, cl_1, cl_2, cl_3, cl_4, cl_5, cl_6, cl_7, cl_8, cl_9, cl_10, cl_11, cl_12, cl_13, cl_14, cl_15, cl_16, cl_17, cl_18, cl_19, cl_20, cl_21, cl_22, cl_23, cl_24, cl_25, cl_26, cl_27, cl_28, cl_29, cl_30, cl_31, cl_32, cl_33, cl_34, cl_35, cl_36, cl_37, cl_38, cl_39, cl_40, cl_41, cl_42, cl_43, cl_44, cl_45, cl_46, cl_47, cl_48, cl_49]

lemma s20_23 : smaAt closesLit 20 23 = some (127 : ℚ) := by
  norm_num [smaAt, rollMean, hr20, hcll, cl_0, cl_1, cl_2, cl_3, cl_4, cl_5, cl_6, cl_7, cl_8, cl_9, cl_10, cl_11, cl_12, cl_13, cl_14, cl_15, cl_16, cl_17, cl_18, cl_19, cl_20, cl_21, cl_22, cl_23, cl_24, cl_25, cl_26, cl_27, cl_28, cl_29, cl_30, cl_31, cl_32, cl_33, cl_34, cl_35, cl_36, cl_37, cl_38, cl_39, cl_40, cl_41, cl_42, cl_43, cl_44, cl_45, cl_46, cl_47, cl_48, cl_49]

lemma s20_24 : smaAt closesLit 20 24 = some (129 : ℚ) := by
  norm_num [smaAt, rollMean, hr20, hcll, cl_0, cl_1, cl_2, cl_3, cl_4, cl_5, cl_6, cl_7, cl_8, cl_9, cl_10, cl_11, cl_12, cl_13, cl_14, cl_15, cl_16, cl_17, cl_18, cl_19, cl_20, cl_21, cl_22, cl_23, cl_24, cl_25, cl_26, cl_27, cl_28, cl_29, cl_30, cl_31, cl_32, cl_33, cl_34, cl_35, cl_36, cl_37, cl_38, cl_39, cl_40, cl_41, cl_42, cl_43, cl_44, cl_45, cl_46, cl_47, cl_48, cl_49]

lemma s20_25 : smaAt closesLit 20 25 = some (131 : ℚ) := by
  norm_num [smaAt, rollMean, hr20, hcll, cl_0, cl_1, cl_2, cl_3, cl_4, cl_5, cl_6, cl_7, cl_8, cl_9, cl_10, cl_11, cl_12, cl_13, cl_14, cl_15, cl_16, cl_17, cl_18, cl_19, cl_20, cl_21, cl_22, cl_23, cl_24, cl_25, cl_26, cl_27, cl_28, cl_29, cl_30, cl_31, cl_32, cl_33, cl_34, cl_35, cl_36, cl_37, cl_38, cl_39, cl_40, cl_41, cl_42, cl_43, cl_44, cl_45, cl_46, cl_47, cl_48, cl_49]

lemma s20_26 : smaAt closesLit 20 26 = some (133 : ℚ) := by
  norm_num [smaAt, rollMean, hr20, hcll, cl_0, cl_1, cl_2, cl_3, cl_4, cl_5, cl_6, cl_7, cl_8, cl_9, cl_10, cl_11, cl_12, cl_13, cl_14, cl_15, cl_16, cl_17, cl_18, cl_19, cl_20, cl_21, cl_22, cl_23, cl_24, cl_25, cl_26, cl_27, cl_28, cl_29, cl_30, cl_31, cl_32, cl_33, cl_34, cl_35, cl_36, cl_37, cl_38, cl_39, cl_40, cl_41, cl_42, cl_43, cl_44, cl_45, cl_46, cl_47, cl_48, cl_49]

lemma s20_27 : smaAt closesLit 20 27 = some (135 : ℚ) := by
  norm_num [smaAt, rollMean, hr20, hcll, cl_0, cl_1, cl_2, cl_3, cl_4, cl_5, cl_6, cl_7, cl_8, cl_9, cl_10, cl_11, cl_12, cl_13, cl_14, cl_15, cl_16, cl_17, cl_18, cl_19, cl_20, cl_21, cl_22, cl_23, cl_24, cl_25, cl_26, cl_27, cl_28, cl_29, cl_30, cl_31, cl_32, cl_33, cl_34, cl_35, cl_36, cl_37, cl_38, cl_39, cl_40, cl_41, cl_42, cl_43, cl_44, cl_45, cl_46, cl_47, cl_48, cl_49]

lemma s20_28 : smaAt closesLit 20 28 = some (137 : ℚ) := by
  norm_num [smaAt, rollMean, hr20, hcll, cl_0, cl_1, cl_2, cl_3, cl_4, cl_5, cl_6, cl_7, cl_8, cl_9, cl_10, cl_11, cl_12, cl_13, cl_14, cl_15, cl_16, cl_17, cl_18, cl_19, cl_20, cl_21, cl_22, cl_23, cl_24, cl_25, cl_26, cl_27, cl_28, cl_29, cl_30, cl_31, cl_32, cl_33, cl_34, cl_35, cl_36, cl_37, cl_38, cl_39, cl_40, cl_41, cl_42, cl_43, cl_44, cl_45, cl_46, cl_47, cl_48, cl_49]

lemma s20_29 : smaAt closesLit 20 29 = some (139 : ℚ) := by
  norm_num [smaAt, rollMean, hr20, hcll, cl_0, cl_1, cl_2, cl_3, cl_4, cl_5, cl_6, cl_7, cl_8, cl_9, cl_10, cl_11, cl_12, cl_13, cl_14, cl_15, cl_16, cl_17, cl_18, cl_19, cl_20, cl_21, cl_22, cl_23, cl_24, cl_25, cl_26, cl_27, cl_28, cl_29, cl_30, cl_31, cl_32, cl_33, cl_34, cl_35, cl_36, cl_37, cl_38, cl_39, cl_40, cl_41, cl_42, cl_43, cl_44, cl_45, cl_46, cl_47, cl_48, cl_49]

lemma s20_30 : smaAt closesLit 20 30 = some (141 : ℚ) := by
  norm_num [smaAt, rollMean, hr20, hcll, cl_0, cl_1, cl_2, cl_3, cl_4, cl_5, cl_6, cl_7, cl_8, cl_9, cl_10, cl_11, cl_12, cl_13, cl_14, cl_15, cl_16, cl_17, cl_18, cl_19, cl_20, cl_21, cl_22, cl_23, cl_24, cl_25, cl_26, cl_27, cl_28, cl_29, cl_30, cl_31, cl_32, cl_33, cl_34, cl_35, cl_36, cl_37, cl_38, cl_39, cl_40, cl_41, cl_42, cl_43, cl_44, cl_45, cl_46, cl_47, cl_48, cl_49]

lemma s20_31 : smaAt closesLit 20 31 = some (143 : ℚ) := by
  norm_num [smaAt, rollMean, hr20, hcll, cl_0, cl_1, cl_2, cl_3, cl_4, cl_5, cl_6, cl_7, cl_8, cl_9, cl_10, cl_11, cl_12, cl_13, cl_14, cl_15, cl_16, cl_17, cl_18, cl_19, cl_20, cl_21, cl_22, cl_23, cl_24, cl_25, cl_26, cl_27, cl_28, cl_29, cl_30, cl_31, cl_32, cl_33, cl_34, cl_35, cl_36, cl_37, cl_38, cl_39, cl_40, cl_41, cl_42, cl_43, cl_44, cl_45, cl_46, cl_47, cl_48, cl_49]

lemma s20_32 : smaAt closesLit 20 32 = some (145 : ℚ) := by
  norm_num [smaAt, rollMean, hr20, hcll, cl_0, cl_1, cl_2, cl_3, cl_4, cl_5, cl_6, cl_7, cl_8, cl_9, cl_10, cl_11, cl_12, cl_13, cl_14, cl_15, cl_16, cl_17, cl_18, cl_19, cl_20, cl_21, cl_22, cl_23, cl_24, cl_25, cl_26, cl_27, cl_28, cl_29, cl_30, cl_31, cl_32, cl_33, cl_34, cl_35, cl_36, cl_37, cl_38, cl_39, cl_40, cl_41, cl_42, cl_43, cl_44, cl_45, cl_46, cl_47, cl_48, cl_49]

lemma s20_33 : smaAt closesLit 20 33 = some (147 : ℚ) := by
  norm_num [smaAt, rollMean, hr20, hcll, cl_0, cl_1, cl_2, cl_3, cl_4, cl_5, cl_6, cl_7, cl_8, cl_9, cl_10, cl_11, cl_12, cl_13, cl_14, cl_15, cl_16, cl_17, cl_18, cl_19, cl_20, cl_21, cl_22, cl_23, cl_24, cl_25, cl_26, cl_27, cl_28, cl_29, cl_30, cl_31, cl_32, cl_33, cl_34, cl_35, cl_36, cl_37, cl_38, cl_39, cl_40, cl_41, cl_42, cl_43, cl_44, cl_45, cl_46, cl_47, cl_48, cl_49]

lemma s20_34 : smaAt closesLit 20 34 = some (149 : ℚ) := by
  norm_num [smaAt, rollMean, hr20, hcll, cl_0, cl_1, cl_2, cl_3, cl_4, cl_5, cl_6, cl_7, cl_8, cl_9, cl_10, cl_11, cl_12, cl_13, cl_14, cl_15, cl_16, cl_17, cl_18, cl_19, cl_20, cl_21, cl_22, cl_23, cl_24, cl_25, cl_26, cl_27, cl_28, cl_29, cl_30, cl_31, cl_32, cl_33, cl_34, cl_35, cl_36, cl_37, cl_38, cl_39, cl_40, cl_41, cl_42, cl_43, cl_44, cl_45, cl_46, cl_47, cl_48, cl_49]

lemma s20_35 : smaAt closesLit 20 35 = some (151 : ℚ) := by
  norm_num [smaAt, rollMean, hr20, hcll, cl_0, cl_1, cl_2, cl_3, cl_4, cl_5, cl_6, cl_7, cl_8, cl_9, cl_10, cl_11, cl_12, cl_13, cl_14, cl_15, cl_16, cl_17, cl_18, cl_19, cl_20, cl_21, cl_22, cl_23, cl_24, cl_25, cl_26, cl_27, cl_28, cl_29, cl_30, cl_31, cl_32, cl_33, cl_34, cl_35, cl_36, cl_37, cl_38, cl_39, cl_40, cl_41, cl_42, cl_43, cl_44, cl_45, cl_46, cl_47, cl_48, cl_49]

lemma s20_36 : smaAt closesLit 20 36 = some (153 : ℚ) := by
  norm_num [smaAt, rollMean, hr20, hcll, cl_0, cl_1, cl_2, cl_3, cl_4, cl_5, cl_6, cl_7, cl_8, cl_9, cl_10, cl_11, cl_12, cl_13, cl_14, cl_15, cl_16, cl_17, cl_18, cl_19, cl_20, cl_21, cl_22, cl_23, cl_24, cl_25, cl_26, cl_27, cl_28, cl_29, cl_30, cl_31, cl_32, cl_33, cl_34, cl_35, cl_36, cl_37, cl_38, cl_39, cl_40, cl_41, cl_42, cl_43, cl_44, cl_45, cl_46, cl_47, cl_48, cl_49]

lemma s20_37 : smaAt closesLit 20 37 = some (155 : ℚ) := by
  norm_num [smaAt, rollMean, hr20, hcll, cl_0, cl_1, cl_2, cl_3, cl_4, cl_5, cl_6, cl_7, cl_8, cl_9, cl_10, cl_11, cl_12, cl_13, cl_14, cl_15, cl_16, cl_17, cl_18, cl_19, cl_20, cl_21, cl_22, cl_23, cl_24, cl_25, cl_26, cl_27, cl_28, cl_29, cl_30, cl_31, cl_32, cl_33, cl_34, cl_35, cl_36, cl_37, cl_38, cl_39, cl_40, cl_41, cl_42, cl_43, cl_44, cl_45, cl_46, cl_47, cl_48, cl_49]

lemma s20_38 : smaAt closesLit 20 38 = some (157 : ℚ) := by
  norm_num [smaAt, rollMean, hr20, hcll, cl_0, cl_1, cl_2, cl_3, cl_4, cl_5, cl_6, cl_7, cl_8, cl_9, cl_10, cl_11, cl_12, cl_13, cl_14, cl_15, cl_16, cl_17, cl_18, cl_19, cl_20, cl_21, cl_22, cl_23, cl_24, cl_25, cl_26, cl_27, cl_28, cl_29, cl_30, cl_31, cl_32, cl_33, cl_34, cl_35, cl_36, cl_37, cl_38, cl_39, cl_40, cl_41, cl_42, cl_43, cl_44, cl_45, cl_46, cl_47, cl_48, cl_49]

lemma s20_39 : smaAt closesLit 20 39 = some (159 : ℚ) := by
  norm_num [smaAt, rollMean, hr20, hcll, cl_0, cl_1, cl_2, cl_3, cl_4, cl_5, cl_6, cl_7, cl_8, cl_9, cl_10, cl_11, cl_12, cl_13, cl_14, cl_15, cl_16, cl_17, cl_18, cl_19, cl_20, cl_21, cl_22, cl_23, cl_24, cl_25, cl_26, cl_27, cl_28, cl_29, cl_30, cl_31, cl_32, cl_33, cl_34, cl_35, cl_36, cl_37, cl_38, cl_39, cl_40, cl_41, cl_42, cl_43, cl_44, cl_45, cl_46, cl_47, cl_48, cl_49]

lemma s20_40 : smaAt closesLit 20 40 = some (161 : ℚ) := by
  norm_num [smaAt, rollMean, hr20, hcll, cl_0, cl_1, cl_2, cl_3, cl_4, cl_5, cl_6, cl_7, cl_8, cl_9, cl_10, cl_11, cl_12, cl_13, cl_14, cl_15, cl_16, cl_17, cl_18, cl_19, cl_20, cl_21, cl_22, cl_23, cl_24, cl_25, cl_26, cl_27, cl_28, cl_29, cl_30, cl_31, cl_32, cl_33, cl_34, cl_35, cl_36, cl_37, cl_38, cl_39, cl_40, cl_41, cl_42, cl_43, cl_44, cl_45, cl_46, cl_47, cl_48, cl_49]

lemma s20_41 : smaAt closesLit 20 41 = some (163 : ℚ) := by
  norm_num [smaAt, rollMean, hr20, hcll, cl_0, cl_1, cl_2, cl_3, cl_4, cl_5, cl_6, cl_7, cl_8, cl_9, cl_10, cl_11, cl_12, cl_13, cl_14, cl_15, cl_16, cl_17, cl_18, cl_19, cl_20, cl_21, cl_22, cl_23, cl_24, cl_25, cl_26, cl_27, cl_28, cl_29, cl_30, cl_31, cl_32, cl_33, cl_34, cl_35, cl_36, cl_37, cl_38, cl_39, cl_40, cl_41, cl_42, cl_43, cl_44, cl_45, cl_46, cl_47, cl_48, cl_49]

lemma s20_42 : smaAt closesLit 20 42 = some (165 : ℚ) := by
  norm_num [smaAt, rollMean, hr20, hcll, cl_0, cl_1, cl_2, cl_3, cl_4, cl_5, cl_6, cl_7, cl_8, cl_9, cl_10, cl_11, cl_12, cl_13, cl_14, cl_15, cl_16, cl_17, cl_18, cl_19, cl_20, cl_21, cl_22, cl_23, cl_24, cl_25, cl_26, cl_27, cl_28, cl_29, cl_30, cl_31, cl_32, cl_33, cl_34, cl_35, cl_36, cl_37, cl_38, cl_39, cl_40, cl_41, cl_42, cl_43, cl_44, cl_45, cl_46, cl_47, cl_48, cl_49]

lemma s20_43 : smaAt closesLit 20 43 = some (167 : ℚ) := by
  norm_num [smaAt, rollMean, hr20, hcll, cl_0, cl_1, cl_2, cl_3, cl_4, cl_5, cl_6, cl_7, cl_8, cl_9, cl_10, cl_11, cl_12, cl_13, cl_14, cl_15, cl_16, cl_17, cl_18, cl_19, cl_20, cl_21, cl_22, cl_23, cl_24, cl_25, cl_26, cl_27, cl_28, cl_29, cl_30, cl_31, cl_32, cl_33, cl_34, cl_35, cl_36, cl_37, cl_38, cl_39, cl_40, cl_41, cl_42, cl_43, cl_44, cl_45, cl_46, cl_47, cl_48, cl_49]

lemma s20_44 : smaAt closesLit 20 44 = some (169 : ℚ) := by
  norm_num [smaAt, rollMean, hr20, hcll, cl_0, cl_1, cl_2, cl_3, cl_4, cl_5, cl_6, cl_7, cl_8, cl_9, cl_10, cl_11, cl_12, cl_13, cl_14, cl_15, cl_16, cl_17, cl_18, cl_19, cl_20, cl_21, cl_22, cl_23, cl_24, cl_25, cl_26, cl_27, cl_28, cl_29, cl_30, cl_31, cl_32, cl_33, cl_34, cl_35, cl_36, cl_37, cl_38, cl_39, cl_40, cl_41, cl_42, cl_43, cl_44, cl_45, cl_46, cl_47, cl_48, cl_49]

lemma s20_45 : smaAt closesLit 20 45 = some (171 : ℚ) := by
  norm_num [smaAt, rollMean, hr20, hcll, cl_0, cl_1, cl_2, cl_3, cl_4, cl_5, cl_6, cl_7, cl_8, cl_9, cl_10, cl_11, cl_12, cl_13, cl_14, cl_15, cl_16, cl_17, cl_18, cl_19, cl_20, cl_21, cl_22, cl_23, cl_24, cl_25, cl_26, cl_27, cl_28, cl_29, cl_30, cl_31, cl_32, cl_33, cl_34, cl_35, cl_36, cl_37, cl_38, cl_39, cl_40, cl_41, cl_42, cl_43, cl_44, cl_45, cl_46, cl_47, cl_48, cl_49]

lemma s20_46 : smaAt closesLit 20 46 = some (173 : ℚ) := by
  norm_num [smaAt, rollMean, hr20, hcll, cl_0, cl_1, cl_2, cl_3, cl_4, cl_5, cl_6, cl_7, cl_8, cl_9, cl_10, cl_11, cl_12, cl_13, cl_14, cl_15, cl_16, cl_17, cl_18, cl_19, cl_20, cl_21, cl_22, cl_23, cl_24, cl_25, cl_26, cl_27, cl_28, cl_29, cl_30, cl_31, cl_32, cl_33, cl_34, cl_35, cl_36, cl_37, cl_38, cl_39, cl_40, cl_41, cl_42, cl_43, cl_44, cl_45, cl_46, cl_47, cl_48, cl_49]

lemma s20_47 : smaAt closesLit 20 47 = some (175 : ℚ) := by
  norm_num [smaAt, rollMean, hr20, hcll, cl_0, cl_1, cl_2, cl_3, cl_4, cl_5, cl_6, cl_7, cl_8, cl_9, cl_10, cl_11, cl_12, cl_13, cl_14, cl_15, cl_16, cl_17, cl_18, cl_19, cl_20, cl_21, cl_22, cl_23, cl_24, cl_25, cl_26, cl_27, cl_28, cl_29, cl_30, cl_31, cl_32, cl_33, cl_34, cl_35, cl_36, cl_37, cl_38, cl_39, cl_40, cl_41, cl_42, cl_43, cl_44, cl_45, cl_46, cl_47, cl_48, cl_49]

lemma s20_48 : smaAt closesLit 20 48 = some (177 : ℚ) := by
  norm_num [smaAt, rollMean, hr20, hcll, cl_0, cl_1, cl_2, cl_3, cl_4, cl_5, cl_6, cl_7, cl_8, cl_9, cl_10, cl_11, cl_12, cl_13, cl_14, cl_15, cl_16, cl_17, cl_18, cl_19, cl_20, cl_21, cl_22, cl_23, cl_24, cl_25, cl_26, cl_27, cl_28, cl_29, cl_30, cl_31, cl_32, cl_33, cl_34, cl_35, cl_36, cl_37, cl_38, cl_39, cl_40, cl_41, cl_42, cl_43, cl_44, cl_45, cl_46, cl_47, cl_48, cl_49]

lemma s20_49 : smaAt closesLit 20 49 = some ((1791 : ℚ) / 10) := by
  norm_num [smaAt, rollMean, hr20, hcll, cl_0, cl_1, cl_2, cl_3, cl_4, cl_5, cl_6, cl_7, cl_8, cl_9, cl_10, cl_11, cl_12, cl_13, cl_14, cl_15, cl_16, cl_17, cl_18, cl_19, cl_20, cl_21, cl_22, cl_23, cl_24, cl_25, cl_26, cl_27, cl_28, cl_29, cl_30, cl_31, cl_32, cl_33, cl_34, cl_35, cl_36, cl_37, cl_38, cl_39, cl_40, cl_41, cl_42, cl_43, cl_44, cl_45, cl_46, cl_47, cl_48, cl_49]

set_option maxHeartbeats 4000000 in
lemma scen_sig : smaSignals scenarioCandles 5 20 = [] := by
  norm_num [smaSignals, scen_len, hr50, scen_cl, nanLE, nanGE,
    List.filterMap_cons,
    s5_0, s5_1, s5_2, s5_3, s5_4, s5_5, s5_6, s5_7, s5_8, s5_9, s5_10, s5_11, s5_12, s5_13, s5_14, s5_15, s5_16, s5_17, s5_18, s5_19, s5_20, s5_21, s5_22, s5_23, s5_24, s5_25, s5_26, s5_27, s5_28, s5_29, s5_30, s5_31, s5_32, s5_33, s5_34, s5_35, s5_36, s5_37, s5_38, s5_39, s5_40, s5_41, s5_42, s5_43, s5_44, s5_45, s5_46, s5_47, s5_48, s5_49,
    s20_0, s20_1, s20_2, s20_3, s20_4, s20_5, s20_6, s20_7, s20_8, s20_9, s20_10, s20_11, s20_12, s20_13, s20_14, s20_15, s20_16, s20_17, s20_18, s20_19, s20_20, s20_21, s20_22, s20_23, s20_24, s20_25, s20_26, s20_27, s20_28, s20_29, s20_30, s20_31, s20_32, s20_33, s20_34, s20_35, s20_36, s20_37, s20_38, s20_39, s20_40, s20_41, s20_42, s20_43, s20_44, s20_45, s20_46, s20_47, s20_48, s20_49]

/-- C5 counterexample: on the strictly increasing 50-candle series from 100
to 200 the SMA(5)/SMA(20) evaluator emits zero BUY signals, not exactly one:
at the first index where both SMAs are defined the previous long SMA is still
NaN, so the crossover comparison is false, and afterwards the short SMA is
already strictly above the long SMA. -/
theorem sma_increasing_scenario_counterexample :
    List.Pairwise (· < ·) closesLit ∧ closesLit.head? = some 100 ∧
    closesLit.getLast? = some 200 ∧ closesLit.length = 50 ∧
    scenarioCandles.map (fun c => c.close) = closesLit ∧
    (smaSignals scenarioCandles 5 20).countP (fun s => s.action == "BUY")
      = 0 ∧
    (smaSignals scenarioCandles 5 20).countP (fun s => s.action == "BUY")
      ≠ 1 := by
  refine ⟨by decide, rfl, rfl, rfl, scen_cl, ?_, ?_⟩ <;> rw [scen_sig]
  · rfl
  · decide

/-- C5 amended: on the strictly increasing 50-candle series from 100 to 200
the SMA(5)/SMA(20) crossover evaluator generates no signal at all (in
particular no BUY), hence no trade, and returns `none`. -/
theorem sma_increasing_scenario_no_signals :
    smaSignals scenarioCandles 5 20 = [] ∧
    run_sma_backtest scenarioCandles "BTC" 5 20 1000 = none := by
  refine ⟨scen_sig, ?_⟩
  simp only [run_sma_backtest, scen_sig]
  rfl

lemma find?_congr_local {α : Type} {p q : α → Bool}
    (h : ∀ a, p a = q a) : ∀ (l : List α), l.find? p = l.find? q := by
  intro l
  induction l with
  | nil => rfl
  | cons a as ih =>
    rw [List.find?_cons, List.find?_cons, h a]
    cases q a
    · exact ih
    · rfl

lemma foldBest_cons (x y : BacktestOutcome) (ys : List BacktestOutcome) :
    foldBest x (y :: ys) =
      foldBest (if x.profit < y.profit then y else x) ys :=
  rfl

lemma foldBest_append (x r : BacktestOutcome) (xs : List BacktestOutcome) :
    foldBest x (xs ++ [r]) =
      if (foldBest x xs).profit < r.profit then r else foldBest x xs := by
  rw [foldBest, List.foldl_append]
  rfl

lemma firstMaxRow_cons :
    ∀ (xs : List BacktestOutcome) (x : BacktestOutcome),
      firstMaxRow (x :: xs) = some (foldBest x xs) := by
  intro xs
  induction xs with
  | nil =>
    intro x
    rw [firstMaxRow, foldBest]
    simp [List.find?_cons]
  | cons y ys ih =>
    intro x
    rw [firstMaxRow]
    rcases lt_or_le x.profit y.profit with hxy | hyx
    · have hPx : (x :: y :: ys).all
          (fun z => z.profit ≤ x.profit) = false := by
        apply Bool.eq_false_iff.mpr
        intro hP
        rw [List.all_eq_true] at hP
        exact absurd (by simpa using hP y (by simp)) (not_le.mpr hxy)
      have hcongr : ∀ a : BacktestOutcome,
          ((x :: y :: ys).all (fun z => z.profit ≤ a.profit)) =
            ((y :: ys).all (fun z => z.profit ≤ a.profit)) := by
        intro a
        rw [List.all_cons]
        cases hta : (y :: ys).all (fun z => decide (z.profit ≤ a.profit)) with
        | false => rw [Bool.and_false]
        | true =>
          have hy : y.profit ≤ a.profit := by
            rw [List.all_eq_true] at hta
            simpa using hta y (by simp)
          rw [Bool.and_true, decide_eq_true (le_trans (le_of_lt hxy) hy)]
      rw [List.find?_cons_of_neg _ (by rw [hPx]; exact Bool.false_ne_true)]
      rw [find?_congr_local hcongr (y :: ys), ← firstMaxRow, ih y]
      rw [foldBest_cons, if_pos hxy]
    · have hcongr : ∀ a : BacktestOutcome,
          ((x :: y :: ys).all (fun z => z.profit ≤ a.profit)) =
            ((x :: ys).all (fun z => z.profit ≤ a.profit)) := by
        intro a
        rw [List.all_cons, List.all_cons, List.all_cons]
        cases hxa : decide (x.profit ≤ a.profit) with
        | false => rw [Bool.false_and, Bool.false_and]
        | true =>
          have hya : y.profit ≤ a.profit :=
            le_trans hyx (of_decide_eq_true hxa)
          rw [decide_eq_true hya, Bool.true_and]
      rw [find?_congr_local hcongr (x :: y :: ys)]
      have hstep : (x :: y :: ys).find?
            (fun z => (x :: ys).all (fun w => w.profit ≤ z.profit)) =
          (x :: ys).find?
            (fun z => (x :: ys).all (fun w => w.profit ≤ z.profit)) := by
        cases hQx : (x :: ys).all (fun w => w.profit ≤ x.profit) with
        | true => simp only [List.find?_cons, hQx]
        | false =>
          have hQy : (x :: ys).all (fun w => w.profit ≤ y.profit) = false := by
            apply Bool.eq_false_iff.mpr
            intro hq
            have hxy2 : x.profit ≤ y.profit := by
              rw [List.all_eq_true] at hq
              simpa using hq x (by simp)
            have heq : y.profit = x.profit := le_antisymm hyx hxy2
            have hQx2 : (x :: ys).all
                (fun w => w.profit ≤ x.profit) = true := by
              rw [List.all_eq_true] at hq ⊢
              intro z hz
              have hzle : z.profit ≤ y.profit := by simpa using hq z hz
              simp [heq ▸ hzle]
            rw [hQx] at hQx2
            cases hQx2
          simp only [List.find?_cons, hQx, hQy]
      rw [hstep, ← firstMaxRow, ih x]
      rw [foldBest_cons, if_neg (not_lt.mpr hyx)]

lemma updBest_filter_self (r : BacktestOutcome) :
    ∀ (acc : List BacktestOutcome),
      (updBest acc r).filter (fun x => x.coin = r.coin) =
        match acc.filter (fun x => x.coin = r.coin) with
        | [] => [r]
        | x :: xs => (if x.profit < r.profit then r else x) :: xs := by
  intro acc
  induction acc with
  | nil => simp [updBest]
  | cons a as ih =>
    rw [updBest]
    by_cases h : a.coin = r.coin
    · rw [if_pos h]
      rcases lt_or_le a.profit r.profit with har | hra
      · rw [if_pos har,
          List.filter_cons_of_pos (by simp), List.filter_cons_of_pos (by simp [h])]
        dsimp only
        rw [if_pos har]
      · rw [if_neg (not_lt.mpr hra), List.filter_cons_of_pos (by simp [h])]
        dsimp only
        rw [if_neg (not_lt.mpr hra)]
    · rw [if_neg h]
      rw [List.filter_cons_of_neg (by simp [h]), List.filter_cons_of_neg (by simp [h])]
      exact ih

lemma updBest_filter_other (r : BacktestOutcome) (c : String) (h : c ≠ r.coin) :
    ∀ (acc : List BacktestOutcome),
      (updBest acc r).filter (fun x => x.coin = c) =
        acc.filter (fun x => x.coin = c) := by
  intro acc
  induction acc with
  | nil =>
    rw [updBest, List.filter_cons_of_neg (by simp [Ne.symm h])]
  | cons a as ih =>
    rw [updBest]
    by_cases ha : a.coin = r.coin
    · rw [if_pos ha]
      have hac : ¬ a.coin = c := fun hc => h (hc.symm.trans ha)
      rcases lt_or_le a.profit r.profit with har | hra
      · rw [if_pos har]
        rw [List.filter_cons_of_neg (by simp [Ne.symm h]),
          List.filter_cons_of_neg (by simp [hac])]
      · rw [if_neg (not_lt.mpr hra)]
    · rw [if_neg ha]
      by_cases hac : a.coin = c
      · rw [List.filter_cons_of_pos (by simp [hac]),
          List.filter_cons_of_pos (by simp [hac]), ih]
      · rw [List.filter_cons_of_neg (by simp [hac]),
          List.filter_cons_of_neg (by simp [hac]), ih]

lemma updBest_map_coin (r : BacktestOutcome) :
    ∀ (acc : List BacktestOutcome),
      (updBest acc r).map (fun x => x.coin) =
        if r.coin ∈ acc.map (fun x => x.coin) then acc.map (fun x => x.coin)
        else acc.map (fun x => x.coin) ++ [r.coin] := by
  intro acc
  induction acc with
  | nil => simp [updBest]
  | cons a as ih =>
    rw [updBest]
    by_cases h : a.coin = r.coin
    · rw [if_pos h]
      have hmem : r.coin ∈ (a :: as).map (fun x => x.coin) := by simp [h.symm]
      rw [if_pos hmem]
      rcases lt_or_le a.profit r.profit with har | hra
      · rw [if_pos har]
        simp [h]
      · rw [if_neg (not_lt.mpr hra)]
    · rw [if_neg h]
      rw [List.map_cons, List.map_cons, ih]
      by_cases hmem : r.coin ∈ as.map (fun x => x.coin)
      · rw [if_pos hmem, if_pos (by simp [hmem])]
      · rw [if_neg hmem, if_neg (by simp [hmem, Ne.symm h])]
        rfl

lemma coinsBest_concat (l : List BacktestOutcome) (r : BacktestOutcome) :
    coinsBest (l ++ [r]) = updBest (coinsBest l) r := by
  rw [coinsBest, coinsBest, List.foldl_append]
  rfl

lemma coinsBest_filter (c : String) :
    ∀ (rs : List BacktestOutcome),
      (coinsBest rs).filter (fun x => x.coin = c) =
        fmList (rs.filter (fun x => x.coin = c)) := by
  intro rs
  induction rs using List.reverseRecOn with
  | nil => rfl
  | append_singleton l r ih =>
    rw [coinsBest_concat, List.filter_append]
    by_cases hc : c = r.coin
    · subst hc
      have hfr : List.filter (fun x => decide (x.coin = r.coin)) [r] = [r] := by
        simp
      rw [hfr, updBest_filter_self, ih]
      rcases hf : l.filter (fun x => x.coin = r.coin) with _ | ⟨x, xs⟩
      · rw [hf]
        rfl
      · rw [hf]
        show (match fmList (x :: xs) with
          | [] => [r]
          | y :: ys => (if y.profit < r.profit then r else y) :: ys) =
            fmList ((x :: xs) ++ [r])
        have e1 : fmList (x :: xs) = [foldBest x xs] := rfl
        have e2 : fmList ((x :: xs) ++ [r]) = [foldBest x (xs ++ [r])] := rfl
        rw [e1, e2]
        dsimp only
        rw [foldBest_append]
    · rw [updBest_filter_other r c hc, ih,
        List.filter_cons_of_neg (by simp [Ne.symm hc]), List.filter_nil,
        List.append_nil]

lemma fmList_eq_firstMaxRow (l : List BacktestOutcome) :
    fmList l = (firstMaxRow l).toList := by
  cases l with
  | nil => rfl
  | cons x xs => rw [firstMaxRow_cons, fmList, Option.toList_some]

lemma coinsBest_map_coin_nodup :
    ∀ (rs : List BacktestOutcome),
      ((coinsBest rs).map (fun x => x.coin)).Nodup := by
  intro rs
  induction rs using List.reverseRecOn with
  | nil => exact List.nodup_nil
  | append_singleton l r ih =>
    rw [coinsBest_concat, updBest_map_coin]
    split
    · exact ih
    · rename_i hnm
      rw [List.nodup_append]
      exact ⟨ih, List.nodup_singleton _,
        fun a ha hb => hnm (by rwa [List.mem_singleton.mp hb] at ha)⟩

lemma updBest_fresh (r : BacktestOutcome) :
    ∀ (acc : List BacktestOutcome),
      r.coin ∉ acc.map (fun x => x.coin) → updBest acc r = acc ++ [r] := by
  intro acc
  induction acc with
  | nil => intro _; rfl
  | cons a as ih =>
    intro h
    rw [updBest, if_neg (fun he => h (by simp [he.symm])),
      ih (fun hm => h (by simp [hm])), List.cons_append]

lemma foldl_updBest_of_nodup :
    ∀ (l acc : List BacktestOutcome),
      ((acc ++ l).map (fun x => x.coin)).Nodup →
      l.foldl updBest acc = acc ++ l := by
  intro l
  induction l with
  | nil =>
    intro acc _
    rw [List.foldl_nil, List.append_nil]
  | cons r l' ih =>
    intro acc h
    have hr : r.coin ∉ acc.map (fun x => x.coin) := by
      rw [List.map_append, List.nodup_append] at h
      intro hmem
      exact h.2.2 hmem (by simp)
    rw [List.foldl_cons, updBest_fresh r acc hr,
      ih (acc ++ [r]) (by rwa [List.append_assoc, List.singleton_append]),
      List.append_assoc, List.singleton_append]

lemma coinsBest_of_nodup_coins (l : List BacktestOutcome)
    (h : (l.map (fun x => x.coin)).Nodup) : coinsBest l = l := by
  rw [coinsBest, foldl_updBest_of_nodup l [] (by simpa using h),
    List.nil_append]

lemma groupLe_trans : ∀ (a b c : BacktestOutcome),
    (fun a b : BacktestOutcome => decide (b.profit ≤ a.profit)) a b →
    (fun a b : BacktestOutcome => decide (b.profit ≤ a.profit)) b c →
    (fun a b : BacktestOutcome => decide (b.profit ≤ a.profit)) a c := by
  intro a b c hab hbc
  exact decide_eq_true
    (le_trans (of_decide_eq_true hbc) (of_decide_eq_true hab))

lemma groupLe_total : ∀ (a b : BacktestOutcome),
    ((fun a b : BacktestOutcome => decide (b.profit ≤ a.profit)) a b ||
      (fun a b : BacktestOutcome => decide (b.profit ≤ a.profit)) b a) := by
  intro a b
  rcases le_total a.profit b.profit with h | h
  · simp [h]
  · simp [h]

lemma group_sorted_bool (rs : List BacktestOutcome) :
    (group_best_results_by_coin rs).Pairwise
      (fun a b => decide (b.profit ≤ a.profit) = true) :=
  List.sorted_mergeSort groupLe_trans groupLe_total (coinsBest rs)

lemma group_perm_coinsBest (rs : List BacktestOutcome) :
    List.Perm (group_best_results_by_coin rs) (coinsBest rs) :=
  List.mergeSort_perm (coinsBest rs) _

/-- C3: `group_best_results_by_coin` keeps, for every coin, exactly the
first-encountered row of maximum `total_profit_usd` (and nothing for coins
not in the input), has pairwise-distinct coins, is sorted by
`total_profit_usd` descending, and is idempotent. -/
theorem group_best_results_by_coin_spec (results : List BacktestOutcome) :
    ((group_best_results_by_coin results).map (fun r => r.coin)).Nodup ∧
    (∀ c, (group_best_results_by_coin results).filter (fun r => r.coin = c) =
      (firstMaxRow (results.filter (fun r => r.coin = c))).toList) ∧
    (group_best_results_by_coin results).Pairwise
      (fun a b => b.profit ≤ a.profit) ∧
    group_best_results_by_coin (group_best_results_by_coin results) =
      group_best_results_by_coin results := by
  have hnodup : ((group_best_results_by_coin results).map
      (fun r => r.coin)).Nodup :=
    (List.Perm.nodup_iff ((group_perm_coinsBest results).map _)).mpr
      (coinsBest_map_coin_nodup results)
  refine ⟨hnodup, ?_, ?_, ?_⟩
  · intro c
    have hperm : List.Perm
        ((group_best_results_by_coin results).filter (fun r => r.coin = c))
        ((coinsBest results).filter (fun r => r.coin = c)) :=
      (group_perm_coinsBest results).filter _
    rw [coinsBest_filter c results, fmList_eq_firstMaxRow] at hperm
    rcases hfm : firstMaxRow (results.filter (fun r => r.coin = c)) with _ | x
    · rw [hfm] at hperm
      exact List.perm_nil.mp hperm
    · rw [hfm] at hperm
      exact List.perm_singleton.mp hperm
  · exact (group_sorted_bool results).imp (fun h => of_decide_eq_true h)
  · have hcb : coinsBest (group_best_results_by_coin results) =
        group_best_results_by_coin results :=
      coinsBest_of_nodup_coins _ hnodup
    rw [group_best_results_by_coin, hcb]
    exact List.mergeSort_of_sorted (group_sorted_bool results)

lemma updFirst_filter_self (r : BacktestOutcome) :
    ∀ (acc : List BacktestOutcome),
      (updFirst acc r).filter (fun x => x.coin = r.coin) =
        match acc.filter (fun x => x.coin = r.coin) with
        | [] => [r]
        | x :: xs => x :: xs := by
  intro acc
  induction acc with
  | nil => simp [updFirst]
  | cons a as ih =>
    rw [updFirst]
    by_cases h : a.coin = r.coin
    · rw [if_pos h, List.filter_cons_of_pos (by simp [h])]
    · rw [if_neg h]
      rw [List.filter_cons_of_neg (by simp [h]),
        List.filter_cons_of_neg (by simp [h])]
      exact ih

lemma updFirst_filter_other (r : BacktestOutcome) (c : String)
    (h : c ≠ r.coin) :
    ∀ (acc : List BacktestOutcome),
      (updFirst acc r).filter (fun x => x.coin = c) =
        acc.filter (fun x => x.coin = c) := by
  intro acc
  induction acc with
  | nil =>
    rw [updFirst, List.filter_cons_of_neg (by simp [Ne.symm h])]
  | cons a as ih =>
    rw [updFirst]
    by_cases ha : a.coin = r.coin
    · rw [if_pos ha]
    · rw [if_neg ha]
      by_cases hac : a.coin = c
      · rw [List.filter_cons_of_pos (by simp [hac]),
          List.filter_cons_of_pos (by simp [hac]), ih]
      · rw [List.filter_cons_of_neg (by simp [hac]),
          List.filter_cons_of_neg (by simp [hac]), ih]

lemma updFirst_map_coin (r : BacktestOutcome) :
    ∀ (acc : List BacktestOutcome),
      (updFirst acc r).map (fun x => x.coin) =
        if r.coin ∈ acc.map (fun x => x.coin) then acc.map (fun x => x.coin)
        else acc.map (fun x => x.coin) ++ [r.coin] := by
  intro acc
  induction acc with
  | nil => simp [updFirst]
  | cons a as ih =>
    rw [updFirst]
    by_cases h : a.coin = r.coin
    · rw [if_pos h, if_pos (by simp [h.symm])]
    · rw [if_neg h, List.map_cons, List.map_cons, ih]
      by_cases hmem : r.coin ∈ as.map (fun x => x.coin)
      · rw [if_pos hmem, if_pos (by simp [hmem])]
      · rw [if_neg hmem, if_neg (by simp [hmem, Ne.symm h])]
        rfl

lemma firstPerCoin_concat (l : List BacktestOutcome) (r : BacktestOutcome) :
    firstPerCoin (l ++ [r]) = updFirst (firstPerCoin l) r := by
  rw [firstPerCoin, firstPerCoin, List.foldl_append]
  rfl

lemma firstPerCoin_filter (c : String) :
    ∀ (rs : List BacktestOutcome),
      (firstPerCoin rs).filter (fun x => x.coin = c) =
        (rs.find? (fun x => x.coin = c)).toList := by
  intro rs
  induction rs using List.reverseRecOn with
  | nil => rfl
  | append_singleton l r ih =>
    rw [firstPerCoin_concat, List.find?_append]
    by_cases hc : c = r.coin
    · subst hc
      rw [updFirst_filter_self, ih]
      rcases hf : l.find? (fun x => x.coin = r.coin) with _ | x
      · rw [hf]
        simp
      · rw [hf]
        rfl
    · rw [updFirst_filter_other r c hc, ih,
        List.find?_cons_of_neg _ (by simp [Ne.symm hc])]
      rw [List.find?_nil, Option.or_none]

lemma firstPerCoin_map_coin_nodup :
    ∀ (rs : List BacktestOutcome),
      ((firstPerCoin rs).map (fun x => x.coin)).Nodup := by
  intro rs
  induction rs using List.reverseRecOn with
  | nil => exact List.nodup_nil
  | append_singleton l r ih =>
    rw [firstPerCoin_concat, updFirst_map_coin]
    split
    · exact ih
    · rename_i hnm
      rw [List.nodup_append]
      exact ⟨ih, List.nodup_singleton _,
        fun a ha hb => hnm (by rwa [List.mem_singleton.mp hb] at ha)⟩

lemma saveLoop_eq_takeWhile (writeOk : String → Bool) :
    ∀ (l : List BacktestOutcome),
      saveLoop writeOk l = (l.takeWhile (fun b => writeOk b.coin)).map mkSave := by
  intro l
  induction l with
  | nil => rfl
  | cons b bs ih =>
    rw [saveLoop, List.takeWhile_cons]
    cases hw : writeOk b.coin with
    | false => simp
    | true => simp [ih]

lemma saveLoop_all_ok :
    ∀ (l : List BacktestOutcome),
      saveLoop (fun _ => true) l = l.map mkSave := by
  intro l
  induction l with
  | nil => rfl
  | cons b bs ih =>
    rw [saveLoop, if_pos rfl, ih, List.map_cons]

lemma sorted_find?_max (c : String) (r : BacktestOutcome) :
    ∀ (rs : List BacktestOutcome),
      rs.Pairwise (fun a b => b.profit ≤ a.profit) →
      rs.find? (fun x => x.coin = c) = some r →
      ∀ y ∈ rs, y.coin = c → y.profit ≤ r.profit := by
  intro rs
  induction rs with
  | nil => intro _ hf; cases hf
  | cons a as ih =>
    intro hp hf y hy hyc
    rw [List.pairwise_cons] at hp
    by_cases ha : a.coin = c
    · rw [List.find?_cons_of_pos _ (by simp [ha])] at hf
      cases hf
      rcases List.mem_cons.mp hy with h | h
      · exact h ▸ le_refl _
      · exact hp.1 y h
    · rw [List.find?_cons_of_neg _ (by simp [ha])] at hf
      rcases List.mem_cons.mp hy with h | h
      · exact absurd (h ▸ hyc) ha
      · exact ih hp.2 hf y h hyc

/-- C4 counterexample: `save_best_results` keeps the first-encountered row
per coin, not the maximum-profit row — on two BTC rows with profits 1 then 2
the saved record carries profit 1 — and a failing write aborts the remaining
writes: with the BTC file write failing, the pending ETH record is not
written (though no exception reaches the caller). -/
theorem save_best_results_counterexample :
    rowBtcHigh.coin = rowBtcLow.coin ∧
    rowBtcLow.profit = 1 ∧ rowBtcHigh.profit = 2 ∧
    save_best_results [rowBtcLow, rowBtcHigh] (fun _ => true)
      = [mkSave rowBtcLow] ∧
    (mkSave rowBtcLow).total_profit_usd = 1 ∧
    save_best_results [rowBtcLow, rowEth] (fun c => !(c == "BTC")) = [] :=
  ⟨rfl, rfl, rfl, rfl, rfl, rfl⟩

/-- C4 amended: `save_best_results` writes at most one record per distinct
coin, carrying the fields of the first-encountered row for that coin — which
is a maximum-`total_profit_usd` row whenever the input is sorted by
`total_profit_usd` descending, as its caller `_execute_optimization`
guarantees; no exception propagates to the caller, but a failing write stops
all remaining writes (the records written so far survive). -/
theorem save_best_results_first_seen_per_coin
    (rs : List BacktestOutcome) (writeOk : String → Bool) :
    ((save_best_results rs (fun _ => true)).map (fun s => s.coin)).Nodup ∧
    (∀ rec ∈ save_best_results rs (fun _ => true),
      ∃ r, rs.find? (fun x => x.coin = rec.coin) = some r ∧ rec = mkSave r) ∧
    (rs.Pairwise (fun a b => b.profit ≤ a.profit) →
      ∀ rec ∈ save_best_results rs (fun _ => true),
        ∀ y ∈ rs, y.coin = rec.coin → y.profit ≤ rec.total_profit_usd) ∧
    save_best_results rs writeOk =
      ((firstPerCoin rs).takeWhile (fun b => writeOk b.coin)).map mkSave := by
  have hall : save_best_results rs (fun _ => true) =
      (firstPerCoin rs).map mkSave := by
    rw [save_best_results, saveLoop_all_ok]
  have hmem : ∀ rec ∈ save_best_results rs (fun _ => true),
      ∃ r, rs.find? (fun x => x.coin = rec.coin) = some r ∧ rec = mkSave r := by
    intro rec hrec
    rw [hall] at hrec
    rcases List.mem_map.mp hrec with ⟨r, hr, hrrec⟩
    refine ⟨r, ?_, hrrec.symm⟩
    have hcoin : rec.coin = r.coin := by rw [← hrrec]; rfl
    rw [hcoin]
    have hfilter := firstPerCoin_filter r.coin rs
    have hrin : r ∈ (firstPerCoin rs).filter (fun x => x.coin = r.coin) :=
      List.mem_filter.mpr ⟨hr, by simp⟩
    rw [hfilter] at hrin
    rcases hf : rs.find? (fun x => x.coin = r.coin) with _ | y
    · rw [hf] at hrin
      cases hrin
    · rw [hf] at hrin
      rw [Option.toList_some, List.mem_singleton] at hrin
      exact hrin ▸ hf
  refine ⟨?_, hmem, ?_, ?_⟩
  · rw [hall, List.map_map]
    have : ((fun s : SaveRec => s.coin) ∘ mkSave) = fun r : BacktestOutcome => r.coin := rfl
    rw [this]
    exact firstPerCoin_map_coin_nodup rs
  · intro hsorted rec hrec y hy hyc
    rcases hmem rec hrec with ⟨r, hfind, hrec2⟩
    have hprof : rec.total_profit_usd = r.profit := by rw [hrec2]; rfl
    rw [hprof]
    exact sorted_find?_max rec.coin r rs hsorted hfind y hy hyc
  · rw [save_best_results, saveLoop_eq_takeWhile]

/-- Witness for the amended C4 on a concrete sorted result list and on a
concrete failing write set. -/
theorem save_best_results_first_seen_per_coin_witness :
    ((save_best_results [rowBtcHigh, rowEth] (fun _ => true)).map
      (fun s => s.coin)).Nodup ∧
    (∃ r, [rowBtcHigh, rowEth].find?
        (fun x => x.coin = (mkSave rowBtcHigh).coin) = some r ∧
      mkSave rowBtcHigh = mkSave r) ∧
    rowBtcHigh.profit ≤ (mkSave rowBtcHigh).total_profit_usd ∧
    save_best_results [rowBtcLow, rowEth] (fun c => !(c == "BTC")) =
      ((firstPerCoin [rowBtcLow, rowEth]).takeWhile
        (fun b => !(b.coin == "BTC"))).map mkSave := by
  have hsave : save_best_results [rowBtcHigh, rowEth] (fun _ => true) =
      [mkSave rowBtcHigh, mkSave rowEth] := rfl
  exact ⟨(save_best_results_first_seen_per_coin [rowBtcHigh, rowEth]
      (fun _ => true)).1,
    (save_best_results_first_seen_per_coin [rowBtcHigh, rowEth]
      (fun _ => true)).2.1 (mkSave rowBtcHigh)
      (by rw [hsave]; exact List.mem_cons_self _ _),
    (save_best_results_first_seen_per_coin [rowBtcHigh, rowEth]
      (fun _ => true)).2.2.1 (by decide) (mkSave rowBtcHigh)
      (by rw [hsave]; exact List.mem_cons_self _ _) rowBtcHigh
      (List.mem_cons_self _ _) rfl,
    (save_best_results_first_seen_per_coin [rowBtcLow, rowEth]
      (fun c => !(c == "BTC"))).2.2.2⟩

/-- C7 counterexample: with price 20 outside the bands (upper 15, lower 5)
the inline band position of `run_bollinger_bands_backtest` — one of the two
implementations the claim covers — is the raw ratio 3/2, not that ratio
clamped to `[0, 1]` (which is 1), so the band position does not equal the
clamped ratio for every price and pair of band values. -/
theorem bb_position_backtest_counterexample :
    bbPositionBacktest 20 15 5 = 3 / 2 ∧
    bandPositionSpec 20 15 5 = 1 ∧
    bbPositionBacktest 20 15 5 ≠ bandPositionSpec 20 15 5 := by
  have h1 : bbPositionBacktest 20 15 5 = 3 / 2 := by
    rw [bbPositionBacktest, if_pos (by norm_num)]
    norm_num
  have h2 : bandPositionSpec 20 15 5 = 1 := by
    rw [bandPositionSpec, if_neg (by norm_num)]
    rw [max_eq_left (by norm_num), min_eq_right (by norm_num)]
  exact ⟨h1, h2, by rw [h1, h2]; norm_num⟩

/-- C7 amended: the live generator's `_calculate_bb_position` equals the
spec's clamped ratio, always lies in `[0, 1]` (in particular it is total —
the `upper == lower` guard means no division by zero is ever evaluated), and
the degenerate case `upper == lower` yields exactly `0.5`; the backtest's
inline band position never divides by zero either and yields exactly `0.5`
when `upper == lower`, but outside that case it is the raw, unclamped
ratio. -/
theorem calc_bb_position_clamped (price upper lower middle : ℚ) :
    calc_bb_position price upper lower middle =
      bandPositionSpec price upper lower ∧
    0 ≤ calc_bb_position price upper lower middle ∧
    calc_bb_position price upper lower middle ≤ 1 ∧
    (upper = lower → calc_bb_position price upper lower middle = 1 / 2) ∧
    (upper = lower → bbPositionBacktest price upper lower = 1 / 2) ∧
    (upper ≠ lower → bbPositionBacktest price upper lower =
      (price - lower) / (upper - lower)) := by
  refine ⟨?_, ?_, ?_, ?_, ?_, ?_⟩
  · rw [calc_bb_position, bandPositionSpec]
    split
    · norm_num
    · simp only [max_def, min_def]
      split_ifs <;> first | rfl | linarith
  · rw [calc_bb_position]
    split
    · norm_num
    · exact le_max_left 0 _
  · rw [calc_bb_position]
    split
    · norm_num
    · exact max_le (by norm_num) (min_le_left 1 _)
  · intro h
    rw [calc_bb_position, if_pos h]
    norm_num
  · intro h
    rw [bbPositionBacktest, if_neg (by simp [h])]
    norm_num
  · intro h
    rw [bbPositionBacktest, if_pos h]

/-- Witness for C7 at concrete bands, exercising the degenerate
`upper == lower` case and the unclamped backtest ratio. -/
theorem calc_bb_position_clamped_witness :
    calc_bb_position 5 10 10 0 = bandPositionSpec 5 10 10 ∧
    0 ≤ calc_bb_position 20 15 5 0 ∧ calc_bb_position 20 15 5 0 ≤ 1 ∧
    calc_bb_position 5 10 10 0 = 1 / 2 ∧
    bbPositionBacktest 5 10 10 = 1 / 2 ∧
    bbPositionBacktest 20 15 5 = (20 - 5) / (15 - 5) :=
  ⟨(calc_bb_position_clamped 5 10 10 0).1,
   (calc_bb_position_clamped 20 15 5 0).2.1,
   (calc_bb_position_clamped 20 15 5 0).2.2.1,
   (calc_bb_position_clamped 5 10 10 0).2.2.2.1 rfl,
   (calc_bb_position_clamped 5 10 10 0).2.2.2.2.1 rfl,
   (calc_bb_position_clamped 20 15 5 0).2.2.2.2.2 (by norm_num)⟩

lemma clampMinMax_bounds (s : ℚ) (h : (0.6 : ℚ) ≤ s) :
    (0.6 : ℚ) ≤ min 1 (max 0 s) ∧ min 1 (max 0 s) ≤ 1 :=
  ⟨le_min (by norm_num) (le_trans h (le_max_right 0 s)), min_le_left _ _⟩

/-- C10: for call-site inputs (a clamped band position for the Bollinger
generator; a truthy nearest level matching the action for the S/R generator)
a BUY or SELL strength always lies in `[0.6, 1]`, and a HOLD strength is
exactly `0`. -/
theorem live_signal_strength_bounds
    (bb_position bandwidth price lower upper touch_threshold
      current_price : ℚ)
    (nearest_resistance nearest_support : Option ℚ) :
    (0 ≤ bb_position → bb_position ≤ 1 →
      (0.6 : ℚ) ≤ bb_signal_strength bb_position bandwidth "BUY" price lower
        upper touch_threshold ∧
      bb_signal_strength bb_position bandwidth "BUY" price lower upper
        touch_threshold ≤ 1) ∧
    (0 ≤ bb_position → bb_position ≤ 1 →
      (0.6 : ℚ) ≤ bb_signal_strength bb_position bandwidth "SELL" price lower
        upper touch_threshold ∧
      bb_signal_strength bb_position bandwidth "SELL" price lower upper
        touch_threshold ≤ 1) ∧
    bb_signal_strength bb_position bandwidth "HOLD" price lower upper
      touch_threshold = 0 ∧
    (optTruthy nearest_support = true →
      (0.6 : ℚ) ≤ sr_signal_strength current_price nearest_resistance
        nearest_support "BUY" ∧
      sr_signal_strength current_price nearest_resistance nearest_support
        "BUY" ≤ 1) ∧
    (optTruthy nearest_resistance = true →
      (0.6 : ℚ) ≤ sr_signal_strength current_price nearest_resistance
        nearest_support "SELL" ∧
      sr_signal_strength current_price nearest_resistance nearest_support
        "SELL" ≤ 1) ∧
    sr_signal_strength current_price nearest_resistance nearest_support
      "HOLD" = 0 := by
  refine ⟨?_, ?_, ?_, ?_, ?_, ?_⟩
  · intro h0 h1
    rw [bb_signal_strength, if_pos rfl]
    dsimp only
    split_ifs with hd hb hb
    · exact clampMinMax_bounds _ (le_min (by norm_num) (by linarith))
    · exact clampMinMax_bounds _ (le_min (by norm_num) (by linarith))
    · exact clampMinMax_bounds _ (by linarith)
    · exact clampMinMax_bounds _ (by linarith)
  · intro h0 h1
    rw [bb_signal_strength, if_neg (by decide), if_pos rfl]
    dsimp only
    split_ifs with hd hb hb
    · exact clampMinMax_bounds _ (le_min (by norm_num) (by linarith))
    · exact clampMinMax_bounds _ (le_min (by norm_num) (by linarith))
    · exact clampMinMax_bounds _ (by linarith)
    · exact clampMinMax_bounds _ (by linarith)
  · rw [bb_signal_strength, if_neg (by decide), if_neg (by decide)]
  · intro ht
    rw [sr_signal_strength, if_pos ⟨rfl, ht⟩]
    dsimp only
    exact clampMinMax_bounds _ (le_max_left _ _)
  · intro ht
    rw [sr_signal_strength,
      if_neg (fun hcon => absurd hcon.1 (by decide)), if_pos ⟨rfl, ht⟩]
    dsimp only
    exact clampMinMax_bounds _ (le_max_left _ _)
  · rw [sr_signal_strength,
      if_neg (fun hcon => absurd hcon.1 (by decide)),
      if_neg (fun hcon => absurd hcon.1 (by decide))]

/-- Witness for C10 at concrete band and level data. -/
theorem live_signal_strength_bounds_witness :
    ((0.6 : ℚ) ≤ bb_signal_strength (1/2) 2 "BUY" 100 99 110 (1/2) ∧
      bb_signal_strength (1/2) 2 "BUY" 100 99 110 (1/2) ≤ 1) ∧
    ((0.6 : ℚ) ≤ bb_signal_strength (1/2) 2 "SELL" 100 99 110 (1/2) ∧
      bb_signal_strength (1/2) 2 "SELL" 100 99 110 (1/2) ≤ 1) ∧
    bb_signal_strength (1/2) 2 "HOLD" 100 99 110 (1/2) = 0 ∧
    ((0.6 : ℚ) ≤ sr_signal_strength 100 (some 110) (some 99) "BUY" ∧
      sr_signal_strength 100 (some 110) (some 99) "BUY" ≤ 1) ∧
    ((0.6 : ℚ) ≤ sr_signal_strength 100 (some 110) (some 99) "SELL" ∧
      sr_signal_strength 100 (some 110) (some 99) "SELL" ≤ 1) ∧
    sr_signal_strength 100 (some 110) (some 99) "HOLD" = 0 := by
  have ht : optTruthy (some (99 : ℚ)) = true := by norm_num [optTruthy]
  have ht2 : optTruthy (some (110 : ℚ)) = true := by norm_num [optTruthy]
  exact ⟨(live_signal_strength_bounds (1/2) 2 100 99 110 (1/2) 100
      (some 110) (some 99)).1 (by norm_num) (by norm_num),
    (live_signal_strength_bounds (1/2) 2 100 99 110 (1/2) 100
      (some 110) (some 99)).2.1 (by norm_num) (by norm_num),
    (live_signal_strength_bounds (1/2) 2 100 99 110 (1/2) 100
      (some 110) (some 99)).2.2.1,
    (live_signal_strength_bounds (1/2) 2 100 99 110 (1/2) 100
      (some 110) (some 99)).2.2.2.1 ht,
    (live_signal_strength_bounds (1/2) 2 100 99 110 (1/2) 100
      (some 110) (some 99)).2.2.2.2.1 ht2,
    (live_signal_strength_bounds (1/2) 2 100 99 110 (1/2) 100
      (some 110) (some 99)).2.2.2.2.2⟩

lemma filterLevelsAux_pairwise (md : ℚ) :
    ∀ (ls acc : List ℚ),
      acc.Pairwise (fun a b => ¬ levelDist b a < md) →
      (filterLevelsAux md acc ls).Pairwise (fun a b => ¬ levelDist b a < md) := by
  intro ls
  induction ls with
  | nil => intro acc h; exact h
  | cons l rest ih =>
    intro acc h
    rw [filterLevelsAux]
    split
    · rename_i hall
      apply ih
      rw [List.pairwise_append]
      refine ⟨h, List.pairwise_singleton _ _, ?_⟩
      intro a ha b hb
      rw [List.mem_singleton] at hb
      subst hb
      rw [List.all_eq_true] at hall
      exact of_decide_eq_true (hall a ha)
    · exact ih acc h

lemma filterLevelsAux_prefix (md : ℚ) :
    ∀ (ls acc : List ℚ), ∃ suffix, filterLevelsAux md acc ls = acc ++ suffix := by
  intro ls
  induction ls with
  | nil =>
    intro acc
    exact ⟨[], (List.append_nil acc).symm⟩
  | cons l rest ih =>
    intro acc
    rw [filterLevelsAux]
    split
    · rcases ih (acc ++ [l]) with ⟨s, hs⟩
      exact ⟨l :: s, by rw [hs, List.append_assoc, List.singleton_append]⟩
    · exact ih acc

/-- C8: a returned nearest resistance is strictly above the current price and
minimal among the resistances above it; a returned nearest support is
strictly below and maximal among the supports below; every pair of kept
levels is at least `min_distance_percent` apart (each later level against
every earlier kept one), and the first clustered level is always kept. -/
theorem nearest_levels_and_level_spacing
    (current_price min_distance_percent : ℚ)
    (resistance_levels support_levels levels : List ℚ) :
    (∀ r, findNearestResistance current_price resistance_levels = some r →
      current_price < r ∧ r ∈ resistance_levels ∧
      ∀ x ∈ resistance_levels, current_price < x → r ≤ x) ∧
    (∀ s, findNearestSupport current_price support_levels = some s →
      s < current_price ∧ s ∈ support_levels ∧
      ∀ x ∈ support_levels, x < current_price → x ≤ s) ∧
    (filter_levels_by_distance levels min_distance_percent).Pairwise
      (fun a b => ¬ levelDist b a < min_distance_percent) ∧
    (∀ l0 rest, levels = l0 :: rest →
      (filter_levels_by_distance levels min_distance_percent).head?
        = some l0) := by
  haveI : Std.Antisymm ((· : ℚ) ≤ ·) := ⟨@fun _ _ h1 h2 => le_antisymm h1 h2⟩
  refine ⟨?_, ?_, ?_, ?_⟩
  · intro r hr
    rw [findNearestResistance,
      List.min?_eq_some_iff (fun a : ℚ => le_refl a)
        (fun a b => min_choice a b) (fun a b c => le_min_iff)] at hr
    obtain ⟨hmem, hmin⟩ := hr
    rw [List.mem_filter] at hmem
    refine ⟨of_decide_eq_true hmem.2, hmem.1, ?_⟩
    intro x hx hpx
    exact hmin x (List.mem_filter.mpr ⟨hx, decide_eq_true hpx⟩)
  · intro s hs
    rw [findNearestSupport,
      List.max?_eq_some_iff (fun a : ℚ => le_refl a)
        (fun a b => max_choice a b) (fun a b c => max_le_iff)] at hs
    obtain ⟨hmem, hmax⟩ := hs
    rw [List.mem_filter] at hmem
    refine ⟨of_decide_eq_true hmem.2, hmem.1, ?_⟩
    intro x hx hpx
    exact hmax x (List.mem_filter.mpr ⟨hx, decide_eq_true hpx⟩)
  · cases levels with
    | nil =>
      simp only [filter_levels_by_distance]
      exact List.Pairwise.nil
    | cons l0 rest =>
      simp only [filter_levels_by_distance]
      exact filterLevelsAux_pairwise _ rest [l0]
        (List.pairwise_singleton _ _)
  · intro l0 rest hl
    subst hl
    simp only [filter_levels_by_distance]
    rcases filterLevelsAux_prefix min_distance_percent rest [l0] with ⟨s, hs⟩
    rw [hs, List.singleton_append, List.head?_cons]

/-- Witness for C8 at concrete price and level lists. -/
theorem nearest_levels_and_level_spacing_witness :
    ((100 : ℚ) < 101 ∧ (101 : ℚ) ∈ [101, 150, 99] ∧
      ∀ x ∈ [(101 : ℚ), 150, 99], 100 < x → 101 ≤ x) ∧
    ((95 : ℚ) < 100 ∧ (95 : ℚ) ∈ [101, 90, 95] ∧
      ∀ x ∈ [(101 : ℚ), 90, 95], x < 100 → x ≤ 95) ∧
    (filter_levels_by_distance [100, 101, 103, 200] 2).Pairwise
      (fun a b => ¬ levelDist b a < 2) ∧
    (filter_levels_by_distance [100, 101, 103, 200] 2).head? = some 100 := by
  have hres : findNearestResistance 100 [101, 150, 99] = some 101 := by
    have : List.filter (fun r => decide (100 < r)) [(101 : ℚ), 150, 99]
        = [101, 150] := by norm_num [List.filter]
    rw [findNearestResistance, this]
    norm_num [List.min?, List.foldl]
  have hsup : findNearestSupport 100 [101, 90, 95] = some 95 := by
    have : List.filter (fun s => decide (s < 100)) [(101 : ℚ), 90, 95]
        = [90, 95] := by norm_num [List.filter]
    rw [findNearestSupport, this]
    norm_num [List.max?, List.foldl]
  exact ⟨(nearest_levels_and_level_spacing 100 2 [101, 150, 99] [101, 90, 95]
      [100, 101, 103, 200]).1 101 hres,
    (nearest_levels_and_level_spacing 100 2 [101, 150, 99] [101, 90, 95]
      [100, 101, 103, 200]).2.1 95 hsup,
    (nearest_levels_and_level_spacing 100 2 [101, 150, 99] [101, 90, 95]
      [100, 101, 103, 200]).2.2.1,
    (nearest_levels_and_level_spacing 100 2 [101, 150, 99] [101, 90, 95]
      [100, 101, 103, 200]).2.2.2 100 [101, 103, 200] rfl⟩
